import Mathlib

/-!
# Verification of the archon binary record / packet framing layer

Shallow embedding of the fixed-layout record types of `character.go` and of
the login server's packet construction (`packets.go`) and configuration
(`configuration.go`).  Bytes are modelled as `Nat` values below 256, byte
sequences as `List Nat`, machine integers as `Nat` with explicit bounds.
Serialization follows the packed little-endian wire layout; the `util`
package's `BytesFromStruct` / struct-decoding helpers are not part of the
sources at hand, so encoders and decoders are modelled from the spec: packed
concatenation of the fields in declared order, little-endian fixed-width
integers, and decoders that reject input shorter than a record's declared
constant size.
-/

namespace Archon

/-! ## Little-endian integer primitives -/

/-- Little-endian encoding of an unsigned 8-bit value. -/
def u8enc (n : Nat) : List Nat := [n % 256]

/-- Little-endian encoding of an unsigned 16-bit value. -/
def u16enc (n : Nat) : List Nat := [n % 256, n / 256 % 256]

/-- Little-endian encoding of an unsigned 32-bit value. -/
def u32enc (n : Nat) : List Nat :=
  [n % 256, n / 256 % 256, n / 65536 % 256, n / 16777216 % 256]

/-- Decode an unsigned 8-bit value, returning the remaining bytes. -/
def u8dec : List Nat → Option (Nat × List Nat)
  | b :: rest => some (b, rest)
  | [] => none

/-- Decode a little-endian unsigned 16-bit value. -/
def u16dec : List Nat → Option (Nat × List Nat)
  | b0 :: b1 :: rest => some (b0 + 256 * b1, rest)
  | _ => none

/-- Decode a little-endian unsigned 32-bit value. -/
def u32dec : List Nat → Option (Nat × List Nat)
  | b0 :: b1 :: b2 :: b3 :: rest =>
      some (b0 + 256 * b1 + 65536 * b2 + 16777216 * b3, rest)
  | _ => none

/-- Decode a fixed-length raw byte range. -/
def bytesDec (k : Nat) (l : List Nat) : Option (List Nat × List Nat) :=
  if k ≤ l.length then some (l.take k, l.drop k) else none

/-- Encode every element of a list in order and concatenate the results. -/
def encAll (enc : α → List Nat) : List α → List Nat
  | [] => []
  | x :: xs => enc x ++ encAll enc xs

/-- Decode a fixed count of consecutive elements. -/
def decCount (dec : List Nat → Option (α × List Nat)) :
    Nat → List Nat → Option (List α × List Nat)
  | 0, l => some ([], l)
  | n + 1, l => do
      let (x, l₁) ← dec l
      let (xs, l₂) ← decCount dec n l₁
      pure (x :: xs, l₂)

/-- A fixed-width byte array field: declared length, every byte below 256. -/
def bytesOK (k : Nat) (l : List Nat) : Prop :=
  l.length = k ∧ ∀ b ∈ l, b < 256

/-- A fixed-width array of 16-bit code units. -/
def w16sOK (k : Nat) (l : List Nat) : Prop :=
  l.length = k ∧ ∀ b ∈ l, b < 65536

/-- A fixed-width array of 32-bit words. -/
def w32sOK (k : Nat) (l : List Nat) : Prop :=
  l.length = k ∧ ∀ b ∈ l, b < 4294967296

instance (k : Nat) (l : List Nat) : Decidable (bytesOK k l) := by
  unfold bytesOK; infer_instance

instance (k : Nat) (l : List Nat) : Decidable (w16sOK k l) := by
  unfold w16sOK; infer_instance

instance (k : Nat) (l : List Nat) : Decidable (w32sOK k l) := by
  unfold w32sOK; infer_instance

/-! ## Round-trip and length lemmas for the primitives -/

theorem zero_lt_u8 : (0 : Nat) < 256 := by decide

theorem zero_lt_u16 : (0 : Nat) < 65536 := by decide

theorem zero_lt_u32 : (0 : Nat) < 4294967296 := by decide

theorem u8enc_length (n : Nat) : (u8enc n).length = 1 := rfl

theorem u16enc_length (n : Nat) : (u16enc n).length = 2 := rfl

theorem u32enc_length (n : Nat) : (u32enc n).length = 4 := rfl

theorem u8_rt {n : Nat} (h : n < 256) (r : List Nat) :
    u8dec (u8enc n ++ r) = some (n, r) := by
  simp [u8enc, u8dec, Nat.mod_eq_of_lt h]

theorem u16_rt {n : Nat} (h : n < 65536) (r : List Nat) :
    u16dec (u16enc n ++ r) = some (n, r) := by
  simp only [u16enc, u16dec, List.cons_append, List.nil_append]
  congr 1
  congr 1
  omega

theorem u32_rt {n : Nat} (h : n < 4294967296) (r : List Nat) :
    u32dec (u32enc n ++ r) = some (n, r) := by
  simp only [u32enc, u32dec, List.cons_append, List.nil_append]
  congr 1
  congr 1
  omega

theorem bytes_rt {k : Nat} {v : List Nat} (h : v.length = k) (r : List Nat) :
    bytesDec k (v ++ r) = some (v, r) := by
  subst h
  simp [bytesDec, List.take_left, List.drop_left]

theorem encAll_length {enc : α → List Nat} {k : Nat} {xs : List α}
    (h : ∀ x ∈ xs, (enc x).length = k) :
    (encAll enc xs).length = xs.length * k := by
  induction xs with
  | nil => simp [encAll]
  | cons x xs ih =>
      simp only [encAll, List.length_append, List.length_cons]
      rw [h x (by simp), ih (fun y hy => h y (by simp [hy]))]
      ring

theorem decCount_rt {enc : α → List Nat} {dec : List Nat → Option (α × List Nat)}
    {xs : List α}
    (h : ∀ x ∈ xs, ∀ r, dec (enc x ++ r) = some (x, r)) (r : List Nat) :
    decCount dec xs.length (encAll enc xs ++ r) = some (xs, r) := by
  induction xs with
  | nil => simp [encAll, decCount]
  | cons x xs ih =>
      simp only [encAll, List.length_cons, decCount, List.append_assoc]
      rw [h x (by simp)]
      simp only [Option.pure_def, Option.bind_eq_bind, Option.some_bind]
      rw [ih (fun y hy => h y (by simp [hy]))]
      rfl

/-- Encoding of a `w16` array: each element little-endian, concatenated. -/
def encW16s (l : List Nat) : List Nat := encAll u16enc l

/-- Decoding of a `w16` array of declared length. -/
def decW16s (k : Nat) (l : List Nat) : Option (List Nat × List Nat) :=
  decCount u16dec k l

/-- Encoding of a `w32` array: each element little-endian, concatenated. -/
def encW32s (l : List Nat) : List Nat := encAll u32enc l

/-- Decoding of a `w32` array of declared length. -/
def decW32s (k : Nat) (l : List Nat) : Option (List Nat × List Nat) :=
  decCount u32dec k l

theorem encW16s_length {l : List Nat} : (encW16s l).length = l.length * 2 :=
  encAll_length (fun x _ => u16enc_length x)

theorem encW32s_length {l : List Nat} : (encW32s l).length = l.length * 4 :=
  encAll_length (fun x _ => u32enc_length x)

theorem w16s_rt {k : Nat} {v : List Nat} (h : w16sOK k v) (r : List Nat) :
    decW16s k (encW16s v ++ r) = some (v, r) := by
  obtain ⟨hl, hb⟩ := h
  subst hl
  exact decCount_rt (fun x hx r => u16_rt (hb x hx) r) r

theorem w32s_rt {k : Nat} {v : List Nat} (h : w32sOK k v) (r : List Nat) :
    decW32s k (encW32s v ++ r) = some (v, r) := by
  obtain ⟨hl, hb⟩ := h
  subst hl
  exact decCount_rt (fun x hx r => u32_rt (hb x hx) r) r

/-! ## Record types of `character.go`

Each Go struct becomes a Lean structure with the same field names (Go's
anonymous embedded fields keep the embedded type's name, as Go itself names
them).  `uintN` fields are `Nat` with a `< 2^N` validity bound, `[k]uintN`
arrays are `List Nat` of declared length, `float32` fields are kept as their
raw 32-bit pattern (the layer never interprets them, only copies the bytes).
-/

/-- Item stored in the player's inventory (`Item`, character.go). -/
structure Item where
  Equipped : Nat
  Flags : Nat
  Data : Nat
  ItemID : Nat
  Data2 : Nat

/-- All fields of an `Item` fit their declared 32-bit width. -/
def Item.valid (v : Item) : Prop :=
  v.Equipped < 4294967296 ∧ v.Flags < 4294967296 ∧ v.Data < 4294967296 ∧
    v.ItemID < 4294967296 ∧ v.Data2 < 4294967296

instance (v : Item) : Decidable v.valid := by
  unfold Item.valid; infer_instance

/-- Declared wire size of `Item`: five 32-bit fields. -/
def Item.size : Nat := 20

/-- Packed little-endian encoding of an `Item`, fields in declared order. -/
def encItem (v : Item) : List Nat :=
  u32enc v.Equipped ++ u32enc v.Flags ++ u32enc v.Data ++
    u32enc v.ItemID ++ u32enc v.Data2

/-- Field-by-field decode of an `Item`. -/
def decItemBody (l : List Nat) : Option (Item × List Nat) := do
  let (a, l) ← u32dec l
  let (b, l) ← u32dec l
  let (c, l) ← u32dec l
  let (d, l) ← u32dec l
  let (e, l) ← u32dec l
  pure (⟨a, b, c, d, e⟩, l)

/-- Decode an `Item`, rejecting input shorter than the declared size. -/
def decItem (l : List Nat) : Option (Item × List Nat) :=
  if l.length < Item.size then none else decItemBody l

theorem encItem_length (v : Item) : (encItem v).length = Item.size := by
  simp [encItem, Item.size, u32enc]

theorem decItem_short {l : List Nat} (h : l.length < Item.size) :
    decItem l = none := by
  simp [decItem, h]

theorem Item_rt {v : Item} (h : v.valid) (r : List Nat) :
    decItem (encItem v ++ r) = some (v, r) := by
  obtain ⟨h1, h2, h3, h4, h5⟩ := h
  have hg : ¬ (encItem v ++ r).length < Item.size := by
    have := encItem_length v
    simp only [List.length_append]
    omega
  have hd : decItem (encItem v ++ r) = decItemBody (encItem v ++ r) := by
    unfold decItem
    rw [if_neg hg]
  rw [hd]
  simp only [encItem, List.append_assoc, decItemBody,
    u32_rt h1, u32_rt h2, u32_rt h3, u32_rt h4, u32_rt h5,
    Option.pure_def, Option.bind_eq_bind, Option.some_bind]

/-- A player's inventory (`Inventory`, character.go). -/
structure Inventory where
  NumItems : Nat
  HPMatsUsed : Nat
  TPMatsUsed : Nat
  Language : Nat
  Items : List Item

/-- Inventory validity: byte-sized counters, exactly 30 valid item slots. -/
def Inventory.valid (v : Inventory) : Prop :=
  v.NumItems < 256 ∧ v.HPMatsUsed < 256 ∧ v.TPMatsUsed < 256 ∧
    v.Language < 256 ∧ v.Items.length = 30 ∧ ∀ x ∈ v.Items, x.valid

instance (v : Inventory) : Decidable v.valid := by
  unfold Inventory.valid; infer_instance

/-- Declared wire size of `Inventory`: 4 count bytes + 30 items. -/
def Inventory.size : Nat := 604

/-- Packed little-endian encoding of an `Inventory`. -/
def encInventory (v : Inventory) : List Nat :=
  u8enc v.NumItems ++ u8enc v.HPMatsUsed ++ u8enc v.TPMatsUsed ++
    u8enc v.Language ++ encAll encItem v.Items

/-- Field-by-field decode of an `Inventory`. -/
def decInventoryBody (l : List Nat) : Option (Inventory × List Nat) := do
  let (a, l) ← u8dec l
  let (b, l) ← u8dec l
  let (c, l) ← u8dec l
  let (d, l) ← u8dec l
  let (xs, l) ← decCount decItem 30 l
  pure (⟨a, b, c, d, xs⟩, l)

/-- Decode an `Inventory`, rejecting input shorter than the declared size. -/
def decInventory (l : List Nat) : Option (Inventory × List Nat) :=
  if l.length < Inventory.size then none else decInventoryBody l

theorem encInventory_length {v : Inventory} (h : v.valid) :
    (encInventory v).length = Inventory.size := by
  have hi : (encAll encItem v.Items).length = v.Items.length * 20 :=
    encAll_length (fun x _ => encItem_length x)
  simp only [encInventory, List.length_append, u8enc, List.length_cons,
    List.length_nil, hi, h.2.2.2.2.1, Inventory.size]

theorem decInventory_short {l : List Nat} (h : l.length < Inventory.size) :
    decInventory l = none := by
  simp [decInventory, h]

theorem Inventory_rt {v : Inventory} (h : v.valid) (r : List Nat) :
    decInventory (encInventory v ++ r) = some (v, r) := by
  obtain ⟨h1, h2, h3, h4, h5, h6⟩ := h
  have hg : ¬ (encInventory v ++ r).length < Inventory.size := by
    have := encInventory_length ⟨h1, h2, h3, h4, h5, h6⟩
    simp only [List.length_append]
    omega
  have hitems : decCount decItem 30 (encAll encItem v.Items ++ r) = some (v.Items, r) := by
    rw [← h5]
    exact decCount_rt (fun x hx r => Item_rt (h6 x hx) r) r
  have hd : decInventory (encInventory v ++ r) = decInventoryBody (encInventory v ++ r) := by
    unfold decInventory
    rw [if_neg hg]
  rw [hd]
  simp only [encInventory, List.append_assoc,
    decInventoryBody, u8_rt h1, u8_rt h2, u8_rt h3, u8_rt h4, hitems,
    Option.pure_def, Option.bind_eq_bind, Option.some_bind]

/-- Items stored in the player's bank (`BankItem`, character.go). -/
structure BankItem where
  Data : Nat
  ItemID : Nat
  Data2 : Nat
  Amount : Nat
  Flags : Nat

/-- All fields of a `BankItem` fit their declared widths. -/
def BankItem.valid (v : BankItem) : Prop :=
  v.Data < 4294967296 ∧ v.ItemID < 4294967296 ∧ v.Data2 < 4294967296 ∧
    v.Amount < 65536 ∧ v.Flags < 65536

instance (v : BankItem) : Decidable v.valid := by
  unfold BankItem.valid; infer_instance

/-- Declared wire size of `BankItem`: three 32-bit + two 16-bit fields. -/
def BankItem.size : Nat := 16

/-- Packed little-endian encoding of a `BankItem`. -/
def encBankItem (v : BankItem) : List Nat :=
  u32enc v.Data ++ u32enc v.ItemID ++ u32enc v.Data2 ++
    u16enc v.Amount ++ u16enc v.Flags

/-- Field-by-field decode of a `BankItem`. -/
def decBankItemBody (l : List Nat) : Option (BankItem × List Nat) := do
  let (a, l) ← u32dec l
  let (b, l) ← u32dec l
  let (c, l) ← u32dec l
  let (d, l) ← u16dec l
  let (e, l) ← u16dec l
  pure (⟨a, b, c, d, e⟩, l)

/-- Decode a `BankItem`, rejecting input shorter than the declared size. -/
def decBankItem (l : List Nat) : Option (BankItem × List Nat) :=
  if l.length < BankItem.size then none else decBankItemBody l

theorem encBankItem_length (v : BankItem) : (encBankItem v).length = BankItem.size := by
  simp [encBankItem, BankItem.size, u32enc, u16enc]

theorem decBankItem_short {l : List Nat} (h : l.length < BankItem.size) :
    decBankItem l = none := by
  simp [decBankItem, h]

theorem BankItem_rt {v : BankItem} (h : v.valid) (r : List Nat) :
    decBankItem (encBankItem v ++ r) = some (v, r) := by
  obtain ⟨h1, h2, h3, h4, h5⟩ := h
  have hg : ¬ (encBankItem v ++ r).length < BankItem.size := by
    have := encBankItem_length v
    simp only [List.length_append]
    omega
  have hd : decBankItem (encBankItem v ++ r) = decBankItemBody (encBankItem v ++ r) := by
    unfold decBankItem
    rw [if_neg hg]
  rw [hd]
  simp only [encBankItem, List.append_assoc,
    decBankItemBody, u32_rt h1, u32_rt h2, u32_rt h3, u16_rt h4, u16_rt h5,
    Option.pure_def, Option.bind_eq_bind, Option.some_bind]

/-- A player's bank (`Bank`, character.go). -/
structure Bank where
  NumItems : Nat
  Meseta : Nat
  Items : List BankItem

/-- Bank validity: 32-bit counters, exactly 200 valid item slots. -/
def Bank.valid (v : Bank) : Prop :=
  v.NumItems < 4294967296 ∧ v.Meseta < 4294967296 ∧
    v.Items.length = 200 ∧ ∀ x ∈ v.Items, x.valid

instance (v : Bank) : Decidable v.valid := by
  unfold Bank.valid; infer_instance

/-- Declared wire size of `Bank`: 8 header bytes + 200 bank items. -/
def Bank.size : Nat := 3208

/-- Packed little-endian encoding of a `Bank`. -/
def encBank (v : Bank) : List Nat :=
  u32enc v.NumItems ++ u32enc v.Meseta ++ encAll encBankItem v.Items

/-- Field-by-field decode of a `Bank`. -/
def decBankBody (l : List Nat) : Option (Bank × List Nat) := do
  let (a, l) ← u32dec l
  let (b, l) ← u32dec l
  let (xs, l) ← decCount decBankItem 200 l
  pure (⟨a, b, xs⟩, l)

/-- Decode a `Bank`, rejecting input shorter than the declared size. -/
def decBank (l : List Nat) : Option (Bank × List Nat) :=
  if l.length < Bank.size then none else decBankBody l

theorem encBank_length {v : Bank} (h : v.valid) :
    (encBank v).length = Bank.size := by
  have hi : (encAll encBankItem v.Items).length = v.Items.length * 16 :=
    encAll_length (fun x _ => encBankItem_length x)
  simp only [encBank, List.length_append, u32enc, List.length_cons,
    List.length_nil, hi, h.2.2.1, Bank.size]

theorem decBank_short {l : List Nat} (h : l.length < Bank.size) :
    decBank l = none := by
  simp [decBank, h]

theorem Bank_rt {v : Bank} (h : v.valid) (r : List Nat) :
    decBank (encBank v ++ r) = some (v, r) := by
  obtain ⟨h1, h2, h3, h4⟩ := h
  have hg : ¬ (encBank v ++ r).length < Bank.size := by
    have := encBank_length ⟨h1, h2, h3, h4⟩
    simp only [List.length_append]
    omega
  have hitems : decCount decBankItem 200 (encAll encBankItem v.Items ++ r) = some (v.Items, r) := by
    rw [← h3]
    exact decCount_rt (fun x hx r => BankItem_rt (h4 x hx) r) r
  have hd : decBank (encBank v ++ r) = decBankBody (encBank v ++ r) := by
    unfold decBank
    rw [if_neg hg]
  rw [hd]
  simp only [encBank, List.append_assoc,
    decBankBody, u32_rt h1, u32_rt h2, hitems,
    Option.pure_def, Option.bind_eq_bind, Option.some_bind]

/-- Per-character stats (`CharacterStats`, character.go). -/
structure CharacterStats where
  ATP : Nat
  MST : Nat
  EVP : Nat
  HP : Nat
  DFP : Nat
  TP : Nat
  LCK : Nat
  ATA : Nat

/-- All eight stats fit their declared 16-bit width. -/
def CharacterStats.valid (v : CharacterStats) : Prop :=
  v.ATP < 65536 ∧ v.MST < 65536 ∧ v.EVP < 65536 ∧ v.HP < 65536 ∧
    v.DFP < 65536 ∧ v.TP < 65536 ∧ v.LCK < 65536 ∧ v.ATA < 65536

instance (v : CharacterStats) : Decidable v.valid := by
  unfold CharacterStats.valid; infer_instance

/-- Declared wire size of `CharacterStats`: eight 16-bit fields. -/
def CharacterStats.size : Nat := 16

/-- Packed little-endian encoding of `CharacterStats`. -/
def encCharacterStats (v : CharacterStats) : List Nat :=
  u16enc v.ATP ++ u16enc v.MST ++ u16enc v.EVP ++ u16enc v.HP ++
    u16enc v.DFP ++ u16enc v.TP ++ u16enc v.LCK ++ u16enc v.ATA

/-- Field-by-field decode of `CharacterStats`. -/
def decCharacterStatsBody (l : List Nat) : Option (CharacterStats × List Nat) := do
  let (a, l) ← u16dec l
  let (b, l) ← u16dec l
  let (c, l) ← u16dec l
  let (d, l) ← u16dec l
  let (e, l) ← u16dec l
  let (f, l) ← u16dec l
  let (g, l) ← u16dec l
  let (h, l) ← u16dec l
  pure (⟨a, b, c, d, e, f, g, h⟩, l)

/-- Decode `CharacterStats`, rejecting input shorter than the declared size. -/
def decCharacterStats (l : List Nat) : Option (CharacterStats × List Nat) :=
  if l.length < CharacterStats.size then none else decCharacterStatsBody l

theorem encCharacterStats_length (v : CharacterStats) :
    (encCharacterStats v).length = CharacterStats.size := by
  simp [encCharacterStats, CharacterStats.size, u16enc]

theorem decCharacterStats_short {l : List Nat} (h : l.length < CharacterStats.size) :
    decCharacterStats l = none := by
  simp [decCharacterStats, h]

theorem CharacterStats_rt {v : CharacterStats} (h : v.valid) (r : List Nat) :
    decCharacterStats (encCharacterStats v ++ r) = some (v, r) := by
  obtain ⟨hcsA, hcsB, hcsC, hcsD, hcsE, hcsF, hcsG, hcsH⟩ := h
  have hg : ¬ (encCharacterStats v ++ r).length < CharacterStats.size := by
    have := encCharacterStats_length v
    simp only [List.length_append]
    omega
  have hd : decCharacterStats (encCharacterStats v ++ r) =
      decCharacterStatsBody (encCharacterStats v ++ r) := by
    unfold decCharacterStats
    rw [if_neg hg]
  rw [hd]
  simp only [encCharacterStats, List.append_assoc, decCharacterStatsBody,
    u16_rt hcsA, u16_rt hcsB, u16_rt hcsC, u16_rt hcsD, u16_rt hcsE, u16_rt hcsF,
    u16_rt hcsG, u16_rt hcsH,
    Option.pure_def, Option.bind_eq_bind, Option.some_bind]

/-- Common fields for a character's appearance (`CharacterInfo`, character.go).
`PropX`/`PropY` are `float32` in the source; the layer never interprets them,
so they are carried as their raw 32-bit patterns. -/
structure CharacterInfo where
  NameColorChksm : Nat
  SectionID : Nat
  CharClass : Nat
  V2flags : Nat
  Version : Nat
  V1Flags : Nat
  Costume : Nat
  Skin : Nat
  Face : Nat
  Head : Nat
  Hair : Nat
  HairRed : Nat
  HairGreen : Nat
  HairBlue : Nat
  PropX : Nat
  PropY : Nat
  Name : List Nat

/-- All `CharacterInfo` fields fit their declared widths. -/
def CharacterInfo.valid (v : CharacterInfo) : Prop :=
  v.NameColorChksm < 4294967296 ∧ v.SectionID < 256 ∧ v.CharClass < 256 ∧
    v.V2flags < 256 ∧ v.Version < 256 ∧ v.V1Flags < 4294967296 ∧
    v.Costume < 65536 ∧ v.Skin < 65536 ∧ v.Face < 65536 ∧ v.Head < 65536 ∧
    v.Hair < 65536 ∧ v.HairRed < 65536 ∧ v.HairGreen < 65536 ∧
    v.HairBlue < 65536 ∧ v.PropX < 4294967296 ∧ v.PropY < 4294967296 ∧
    w16sOK 16 v.Name

instance (v : CharacterInfo) : Decidable v.valid := by
  unfold CharacterInfo.valid; infer_instance

/-- Declared wire size of `CharacterInfo`. -/
def CharacterInfo.size : Nat := 68

/-- Packed little-endian encoding of `CharacterInfo`. -/
def encCharacterInfo (v : CharacterInfo) : List Nat :=
  u32enc v.NameColorChksm ++ u8enc v.SectionID ++ u8enc v.CharClass ++
    u8enc v.V2flags ++ u8enc v.Version ++ u32enc v.V1Flags ++
    u16enc v.Costume ++ u16enc v.Skin ++ u16enc v.Face ++ u16enc v.Head ++
    u16enc v.Hair ++ u16enc v.HairRed ++ u16enc v.HairGreen ++
    u16enc v.HairBlue ++ u32enc v.PropX ++ u32enc v.PropY ++ encW16s v.Name

/-- Decode of the first six `CharacterInfo` fields. -/
def decCharacterInfoPart1 (l : List Nat) :
    Option ((Nat × Nat × Nat × Nat × Nat × Nat) × List Nat) := do
  let (a, l) ← u32dec l
  let (b, l) ← u8dec l
  let (c, l) ← u8dec l
  let (d, l) ← u8dec l
  let (e, l) ← u8dec l
  let (f, l) ← u32dec l
  pure ((a, b, c, d, e, f), l)

/-- Decode of the six 16-bit customization fields of `CharacterInfo`. -/
def decCharacterInfoPart2 (l : List Nat) :
    Option ((Nat × Nat × Nat × Nat × Nat × Nat) × List Nat) := do
  let (a, l) ← u16dec l
  let (b, l) ← u16dec l
  let (c, l) ← u16dec l
  let (d, l) ← u16dec l
  let (e, l) ← u16dec l
  let (f, l) ← u16dec l
  pure ((a, b, c, d, e, f), l)

/-- Decode of the trailing `CharacterInfo` fields. -/
def decCharacterInfoPart3 (l : List Nat) :
    Option ((Nat × Nat × Nat × Nat × List Nat) × List Nat) := do
  let (a, l) ← u16dec l
  let (b, l) ← u16dec l
  let (c, l) ← u32dec l
  let (d, l) ← u32dec l
  let (nm, l) ← decW16s 16 l
  pure ((a, b, c, d, nm), l)

/-- Field-by-field decode of `CharacterInfo`. -/
def decCharacterInfoBody (l : List Nat) : Option (CharacterInfo × List Nat) := do
  let ((a, b, c, d, e, f), l) ← decCharacterInfoPart1 l
  let ((g, h, i, j, k, m), l) ← decCharacterInfoPart2 l
  let ((n, o, p, q, nm), l) ← decCharacterInfoPart3 l
  pure (⟨a, b, c, d, e, f, g, h, i, j, k, m, n, o, p, q, nm⟩, l)

/-- Decode `CharacterInfo`, rejecting input shorter than the declared size. -/
def decCharacterInfo (l : List Nat) : Option (CharacterInfo × List Nat) :=
  if l.length < CharacterInfo.size then none else decCharacterInfoBody l

theorem encCharacterInfo_length {v : CharacterInfo} (h : v.valid) :
    (encCharacterInfo v).length = CharacterInfo.size := by
  have hn : (encW16s v.Name).length = v.Name.length * 2 := encW16s_length
  simp only [encCharacterInfo, List.length_append, u32enc, u16enc, u8enc,
    List.length_cons, List.length_nil, hn, h.2.2.2.2.2.2.2.2.2.2.2.2.2.2.2.2.1,
    CharacterInfo.size]

theorem decCharacterInfo_short {l : List Nat} (h : l.length < CharacterInfo.size) :
    decCharacterInfo l = none := by
  simp [decCharacterInfo, h]

theorem decCharacterInfoPart1_rt {a b c d e f : Nat}
    (h1 : a < 4294967296) (h2 : b < 256) (h3 : c < 256) (h4 : d < 256)
    (h5 : e < 256) (h6 : f < 4294967296) (r : List Nat) :
    decCharacterInfoPart1
      (u32enc a ++ (u8enc b ++ (u8enc c ++ (u8enc d ++ (u8enc e ++ (u32enc f ++ r)))))) =
      some ((a, b, c, d, e, f), r) := by
  simp only [decCharacterInfoPart1, u32_rt h1, u8_rt h2, u8_rt h3, u8_rt h4,
    u8_rt h5, u32_rt h6, Option.pure_def, Option.bind_eq_bind, Option.some_bind]

theorem decCharacterInfoPart2_rt {a b c d e f : Nat}
    (h1 : a < 65536) (h2 : b < 65536) (h3 : c < 65536) (h4 : d < 65536)
    (h5 : e < 65536) (h6 : f < 65536) (r : List Nat) :
    decCharacterInfoPart2
      (u16enc a ++ (u16enc b ++ (u16enc c ++ (u16enc d ++ (u16enc e ++ (u16enc f ++ r)))))) =
      some ((a, b, c, d, e, f), r) := by
  simp only [decCharacterInfoPart2, u16_rt h1, u16_rt h2, u16_rt h3, u16_rt h4,
    u16_rt h5, u16_rt h6, Option.pure_def, Option.bind_eq_bind, Option.some_bind]

theorem decCharacterInfoPart3_rt {a b c d : Nat} {nm : List Nat}
    (h1 : a < 65536) (h2 : b < 65536) (h3 : c < 4294967296) (h4 : d < 4294967296)
    (h5 : w16sOK 16 nm) (r : List Nat) :
    decCharacterInfoPart3
      (u16enc a ++ (u16enc b ++ (u32enc c ++ (u32enc d ++ (encW16s nm ++ r))))) =
      some ((a, b, c, d, nm), r) := by
  simp only [decCharacterInfoPart3, u16_rt h1, u16_rt h2, u32_rt h3, u32_rt h4,
    w16s_rt h5, Option.pure_def, Option.bind_eq_bind, Option.some_bind]

theorem CharacterInfo_rt {v : CharacterInfo} (h : v.valid) (r : List Nat) :
    decCharacterInfo (encCharacterInfo v ++ r) = some (v, r) := by
  obtain ⟨hciA, hciB, hciC, hciD, hciE, hciF, hciG, hciH, hciI, hciJ, hciK, hciL, hciM, hciN, hciO, hciP, hciQ⟩ := h
  have hg : ¬ (encCharacterInfo v ++ r).length < CharacterInfo.size := by
    have := encCharacterInfo_length
      ⟨hciA, hciB, hciC, hciD, hciE, hciF, hciG, hciH, hciI, hciJ, hciK, hciL, hciM, hciN, hciO, hciP, hciQ⟩
    simp only [List.length_append]
    omega
  have hd : decCharacterInfo (encCharacterInfo v ++ r) =
      decCharacterInfoBody (encCharacterInfo v ++ r) := by
    unfold decCharacterInfo
    rw [if_neg hg]
  rw [hd]
  simp only [encCharacterInfo, List.append_assoc, decCharacterInfoBody,
    decCharacterInfoPart1_rt hciA hciB hciC hciD hciE hciF,
    decCharacterInfoPart2_rt hciG hciH hciI hciJ hciK hciL,
    decCharacterInfoPart3_rt hciM hciN hciO hciP hciQ,
    Option.pure_def, Option.bind_eq_bind, Option.some_bind]

/-- Character data sent to other lobby members (`Character`, character.go).
The anonymous embedded `CharacterStats` / `CharacterInfo` fields keep the
embedded type name, exactly as Go names them. -/
structure Character where
  CharacterStats : CharacterStats
  Unknown : List Nat
  Level : Nat
  Exp : Nat
  Meseta : Nat
  GuildcardStr : List Nat
  NameColor : Nat
  Model : Nat
  Unused : List Nat
  Playtime : Nat
  CharacterInfo : CharacterInfo
  Config : List Nat
  Techniques : List Nat

/-- All `Character` fields fit their declared widths and array lengths. -/
def Character.valid (v : Character) : Prop :=
  v.CharacterStats.valid ∧ bytesOK 8 v.Unknown ∧ v.Level < 4294967296 ∧
    v.Exp < 4294967296 ∧ v.Meseta < 4294967296 ∧ bytesOK 24 v.GuildcardStr ∧
    v.NameColor < 4294967296 ∧ v.Model < 256 ∧ bytesOK 11 v.Unused ∧
    v.Playtime < 4294967296 ∧ v.CharacterInfo.valid ∧ bytesOK 232 v.Config ∧
    bytesOK 20 v.Techniques

instance (v : Character) : Decidable v.valid := by
  unfold Character.valid; infer_instance

/-- Declared wire size of `Character`. -/
def Character.size : Nat := 400

/-- Packed little-endian encoding of a `Character`, fields in declared order. -/
def encCharacter (v : Character) : List Nat :=
  encCharacterStats v.CharacterStats ++ v.Unknown ++ u32enc v.Level ++
    u32enc v.Exp ++ u32enc v.Meseta ++ v.GuildcardStr ++ u32enc v.NameColor ++
    u8enc v.Model ++ v.Unused ++ u32enc v.Playtime ++
    encCharacterInfo v.CharacterInfo ++ v.Config ++ v.Techniques

/-- Decode of the first six `Character` fields. -/
def decCharacterPart1 (l : List Nat) :
    Option ((CharacterStats × List Nat × Nat × Nat × Nat × List Nat) × List Nat) := do
  let (st, l) ← decCharacterStats l
  let (un, l) ← bytesDec 8 l
  let (lv, l) ← u32dec l
  let (ex, l) ← u32dec l
  let (ms, l) ← u32dec l
  let (gs, l) ← bytesDec 24 l
  pure ((st, un, lv, ex, ms, gs), l)

/-- Decode of the middle four `Character` fields. -/
def decCharacterPart2 (l : List Nat) :
    Option ((Nat × Nat × List Nat × Nat) × List Nat) := do
  let (nc, l) ← u32dec l
  let (md, l) ← u8dec l
  let (uu, l) ← bytesDec 11 l
  let (pt, l) ← u32dec l
  pure ((nc, md, uu, pt), l)

/-- Decode of the trailing three `Character` fields. -/
def decCharacterPart3 (l : List Nat) :
    Option ((CharacterInfo × List Nat × List Nat) × List Nat) := do
  let (ci, l) ← decCharacterInfo l
  let (cf, l) ← bytesDec 232 l
  let (tq, l) ← bytesDec 20 l
  pure ((ci, cf, tq), l)

/-- Field-by-field decode of a `Character`. -/
def decCharacterBody (l : List Nat) : Option (Character × List Nat) := do
  let ((st, un, lv, ex, ms, gs), l) ← decCharacterPart1 l
  let ((nc, md, uu, pt), l) ← decCharacterPart2 l
  let ((ci, cf, tq), l) ← decCharacterPart3 l
  pure (⟨st, un, lv, ex, ms, gs, nc, md, uu, pt, ci, cf, tq⟩, l)

/-- Decode a `Character`, rejecting input shorter than the declared size. -/
def decCharacter (l : List Nat) : Option (Character × List Nat) :=
  if l.length < Character.size then none else decCharacterBody l

theorem encCharacter_length {v : Character} (h : v.valid) :
    (encCharacter v).length = Character.size := by
  obtain ⟨hchA, hchB, hchC, hchD, hchE, hchF, hchG, hchH, hchI, hchJ, hchK, hchL, hchM⟩ := h
  simp only [encCharacter, List.length_append, u32enc, u8enc, List.length_cons,
    List.length_nil, encCharacterStats_length v.CharacterStats,
    encCharacterInfo_length hchK, hchB.1, hchF.1, hchI.1, hchL.1, hchM.1,
    CharacterStats.size, CharacterInfo.size, Character.size]

theorem decCharacter_short {l : List Nat} (h : l.length < Character.size) :
    decCharacter l = none := by
  simp [decCharacter, h]

theorem decCharacterPart1_rt {st : CharacterStats} {un gs : List Nat}
    {lv ex ms : Nat} (h1 : st.valid) (h2 : un.length = 8)
    (h3 : lv < 4294967296) (h4 : ex < 4294967296) (h5 : ms < 4294967296)
    (h6 : gs.length = 24) (r : List Nat) :
    decCharacterPart1
      (encCharacterStats st ++ (un ++ (u32enc lv ++ (u32enc ex ++
        (u32enc ms ++ (gs ++ r)))))) = some ((st, un, lv, ex, ms, gs), r) := by
  simp only [decCharacterPart1, CharacterStats_rt h1, bytes_rt h2, u32_rt h3,
    u32_rt h4, u32_rt h5, bytes_rt h6,
    Option.pure_def, Option.bind_eq_bind, Option.some_bind]

theorem decCharacterPart2_rt {nc md pt : Nat} {uu : List Nat}
    (h1 : nc < 4294967296) (h2 : md < 256) (h3 : uu.length = 11)
    (h4 : pt < 4294967296) (r : List Nat) :
    decCharacterPart2
      (u32enc nc ++ (u8enc md ++ (uu ++ (u32enc pt ++ r)))) =
      some ((nc, md, uu, pt), r) := by
  simp only [decCharacterPart2, u32_rt h1, u8_rt h2, bytes_rt h3, u32_rt h4,
    Option.pure_def, Option.bind_eq_bind, Option.some_bind]

theorem decCharacterPart3_rt {ci : CharacterInfo} {cf tq : List Nat}
    (h1 : ci.valid) (h2 : cf.length = 232) (h3 : tq.length = 20) (r : List Nat) :
    decCharacterPart3 (encCharacterInfo ci ++ (cf ++ (tq ++ r))) =
      some ((ci, cf, tq), r) := by
  simp only [decCharacterPart3, CharacterInfo_rt h1, bytes_rt h2, bytes_rt h3,
    Option.pure_def, Option.bind_eq_bind, Option.some_bind]

theorem Character_rt {v : Character} (h : v.valid) (r : List Nat) :
    decCharacter (encCharacter v ++ r) = some (v, r) := by
  obtain ⟨hchA, hchB, hchC, hchD, hchE, hchF, hchG, hchH, hchI, hchJ, hchK, hchL, hchM⟩ := h
  have hg : ¬ (encCharacter v ++ r).length < Character.size := by
    have := encCharacter_length
      ⟨hchA, hchB, hchC, hchD, hchE, hchF, hchG, hchH, hchI, hchJ, hchK, hchL, hchM⟩
    simp only [List.length_append]
    omega
  have hd : decCharacter (encCharacter v ++ r) =
      decCharacterBody (encCharacter v ++ r) := by
    unfold decCharacter
    rw [if_neg hg]
  rw [hd]
  simp only [encCharacter, List.append_assoc, decCharacterBody,
    decCharacterPart1_rt hchA hchB.1 hchC hchD hchE hchF.1,
    decCharacterPart2_rt hchG hchH hchI.1 hchJ,
    decCharacterPart3_rt hchK hchL.1 hchM.1,
    Option.pure_def, Option.bind_eq_bind, Option.some_bind]

/-- Per-player friend guildcard entry (`GuildcardEntry`, character.go). -/
structure GuildcardEntry where
  Guildcard : Nat
  Name : List Nat
  TeamName : List Nat
  Description : List Nat
  Reserved : Nat
  Language : Nat
  SectionID : Nat
  CharClass : Nat
  padding : Nat
  Comment : List Nat

/-- All `GuildcardEntry` fields fit their declared widths and lengths. -/
def GuildcardEntry.valid (v : GuildcardEntry) : Prop :=
  v.Guildcard < 4294967296 ∧ w16sOK 24 v.Name ∧ w16sOK 16 v.TeamName ∧
    w16sOK 88 v.Description ∧ v.Reserved < 256 ∧ v.Language < 256 ∧
    v.SectionID < 256 ∧ v.CharClass < 256 ∧ v.padding < 4294967296 ∧
    w16sOK 88 v.Comment

instance (v : GuildcardEntry) : Decidable v.valid := by
  unfold GuildcardEntry.valid; infer_instance

/-- Declared wire size of `GuildcardEntry`. -/
def GuildcardEntry.size : Nat := 444

/-- Packed little-endian encoding of a `GuildcardEntry`. -/
def encGuildcardEntry (v : GuildcardEntry) : List Nat :=
  u32enc v.Guildcard ++ encW16s v.Name ++ encW16s v.TeamName ++
    encW16s v.Description ++ u8enc v.Reserved ++ u8enc v.Language ++
    u8enc v.SectionID ++ u8enc v.CharClass ++ u32enc v.padding ++
    encW16s v.Comment

/-- Decode of the first five `GuildcardEntry` fields. -/
def decGuildcardEntryPart1 (l : List Nat) :
    Option ((Nat × List Nat × List Nat × List Nat × Nat) × List Nat) := do
  let (gc, l) ← u32dec l
  let (nm, l) ← decW16s 24 l
  let (tn, l) ← decW16s 16 l
  let (ds, l) ← decW16s 88 l
  let (rv, l) ← u8dec l
  pure ((gc, nm, tn, ds, rv), l)

/-- Decode of the trailing five `GuildcardEntry` fields. -/
def decGuildcardEntryPart2 (l : List Nat) :
    Option ((Nat × Nat × Nat × Nat × List Nat) × List Nat) := do
  let (lg, l) ← u8dec l
  let (si, l) ← u8dec l
  let (cc, l) ← u8dec l
  let (pd, l) ← u32dec l
  let (cm, l) ← decW16s 88 l
  pure ((lg, si, cc, pd, cm), l)

/-- Field-by-field decode of a `GuildcardEntry`. -/
def decGuildcardEntryBody (l : List Nat) : Option (GuildcardEntry × List Nat) := do
  let ((gc, nm, tn, ds, rv), l) ← decGuildcardEntryPart1 l
  let ((lg, si, cc, pd, cm), l) ← decGuildcardEntryPart2 l
  pure (⟨gc, nm, tn, ds, rv, lg, si, cc, pd, cm⟩, l)

/-- Decode a `GuildcardEntry`, rejecting input shorter than the declared size. -/
def decGuildcardEntry (l : List Nat) : Option (GuildcardEntry × List Nat) :=
  if l.length < GuildcardEntry.size then none else decGuildcardEntryBody l

theorem encGuildcardEntry_length {v : GuildcardEntry} (h : v.valid) :
    (encGuildcardEntry v).length = GuildcardEntry.size := by
  obtain ⟨hgeA, hgeB, hgeC, hgeD, hgeE, hgeF, hgeG, hgeH, hgeI, hgeJ⟩ := h
  simp only [encGuildcardEntry, List.length_append, u32enc, u8enc,
    List.length_cons, List.length_nil, encW16s_length, hgeB.1, hgeC.1, hgeD.1, hgeJ.1,
    GuildcardEntry.size]

theorem decGuildcardEntry_short {l : List Nat} (h : l.length < GuildcardEntry.size) :
    decGuildcardEntry l = none := by
  simp [decGuildcardEntry, h]

theorem decGuildcardEntryPart1_rt {gc rv : Nat} {nm tn ds : List Nat}
    (h1 : gc < 4294967296) (h2 : w16sOK 24 nm) (h3 : w16sOK 16 tn)
    (h4 : w16sOK 88 ds) (h5 : rv < 256) (r : List Nat) :
    decGuildcardEntryPart1
      (u32enc gc ++ (encW16s nm ++ (encW16s tn ++ (encW16s ds ++ (u8enc rv ++ r))))) =
      some ((gc, nm, tn, ds, rv), r) := by
  simp only [decGuildcardEntryPart1, u32_rt h1, w16s_rt h2, w16s_rt h3,
    w16s_rt h4, u8_rt h5, Option.pure_def, Option.bind_eq_bind, Option.some_bind]

theorem decGuildcardEntryPart2_rt {lg si cc pd : Nat} {cm : List Nat}
    (h1 : lg < 256) (h2 : si < 256) (h3 : cc < 256) (h4 : pd < 4294967296)
    (h5 : w16sOK 88 cm) (r : List Nat) :
    decGuildcardEntryPart2
      (u8enc lg ++ (u8enc si ++ (u8enc cc ++ (u32enc pd ++ (encW16s cm ++ r))))) =
      some ((lg, si, cc, pd, cm), r) := by
  simp only [decGuildcardEntryPart2, u8_rt h1, u8_rt h2, u8_rt h3, u32_rt h4,
    w16s_rt h5, Option.pure_def, Option.bind_eq_bind, Option.some_bind]

theorem GuildcardEntry_rt {v : GuildcardEntry} (h : v.valid) (r : List Nat) :
    decGuildcardEntry (encGuildcardEntry v ++ r) = some (v, r) := by
  obtain ⟨hgeA, hgeB, hgeC, hgeD, hgeE, hgeF, hgeG, hgeH, hgeI, hgeJ⟩ := h
  have hg : ¬ (encGuildcardEntry v ++ r).length < GuildcardEntry.size := by
    have := encGuildcardEntry_length ⟨hgeA, hgeB, hgeC, hgeD, hgeE, hgeF, hgeG, hgeH, hgeI, hgeJ⟩
    simp only [List.length_append]
    omega
  have hd : decGuildcardEntry (encGuildcardEntry v ++ r) =
      decGuildcardEntryBody (encGuildcardEntry v ++ r) := by
    unfold decGuildcardEntry
    rw [if_neg hg]
  rw [hd]
  simp only [encGuildcardEntry, List.append_assoc, decGuildcardEntryBody,
    decGuildcardEntryPart1_rt hgeA hgeB hgeC hgeD hgeE,
    decGuildcardEntryPart2_rt hgeF hgeG hgeH hgeI hgeJ,
    Option.pure_def, Option.bind_eq_bind, Option.some_bind]

/-- Per-player guildcard data chunk (`GuildcardData`, character.go).  The
`Unknown*` and `Blocked` ranges are opaque reserved byte ranges. -/
structure GuildcardData where
  Unknown : List Nat
  Blocked : List Nat
  Unknown2 : List Nat
  Entries : List GuildcardEntry
  Unknown3 : List Nat

/-- Validity of `GuildcardData`: declared lengths (0x114, 0x1DE8, 0x78, 104
entries, 0x1BC) and valid entries. -/
def GuildcardData.valid (v : GuildcardData) : Prop :=
  bytesOK 276 v.Unknown ∧ bytesOK 7656 v.Blocked ∧ bytesOK 120 v.Unknown2 ∧
    v.Entries.length = 104 ∧ (∀ x ∈ v.Entries, x.valid) ∧
    bytesOK 444 v.Unknown3

instance (v : GuildcardData) : Decidable v.valid := by
  unfold GuildcardData.valid; infer_instance

/-- Declared wire size of `GuildcardData`. -/
def GuildcardData.size : Nat := 54672

/-- Packed little-endian encoding of `GuildcardData`. -/
def encGuildcardData (v : GuildcardData) : List Nat :=
  v.Unknown ++ v.Blocked ++ v.Unknown2 ++
    encAll encGuildcardEntry v.Entries ++ v.Unknown3

/-- Field-by-field decode of `GuildcardData`. -/
def decGuildcardDataBody (l : List Nat) : Option (GuildcardData × List Nat) := do
  let (u1, l) ← bytesDec 276 l
  let (bl, l) ← bytesDec 7656 l
  let (u2, l) ← bytesDec 120 l
  let (es, l) ← decCount decGuildcardEntry 104 l
  let (u3, l) ← bytesDec 444 l
  pure (⟨u1, bl, u2, es, u3⟩, l)

/-- Decode `GuildcardData`, rejecting input shorter than the declared size. -/
def decGuildcardData (l : List Nat) : Option (GuildcardData × List Nat) :=
  if l.length < GuildcardData.size then none else decGuildcardDataBody l

theorem encGuildcardData_length {v : GuildcardData} (h : v.valid) :
    (encGuildcardData v).length = GuildcardData.size := by
  obtain ⟨h1, h2, h3, h4, h5, h6⟩ := h
  have he : (encAll encGuildcardEntry v.Entries).length = v.Entries.length * 444 :=
    encAll_length (fun x hx => encGuildcardEntry_length (h5 x hx))
  simp only [encGuildcardData, List.length_append, he, h1.1, h2.1, h3.1, h4,
    h6.1, GuildcardData.size]

theorem decGuildcardData_short {l : List Nat} (h : l.length < GuildcardData.size) :
    decGuildcardData l = none := by
  simp [decGuildcardData, h]

theorem GuildcardData_rt {v : GuildcardData} (h : v.valid) (r : List Nat) :
    decGuildcardData (encGuildcardData v ++ r) = some (v, r) := by
  obtain ⟨h1, h2, h3, h4, h5, h6⟩ := h
  have hg : ¬ (encGuildcardData v ++ r).length < GuildcardData.size := by
    have := encGuildcardData_length ⟨h1, h2, h3, h4, h5, h6⟩
    simp only [List.length_append]
    omega
  have hentries : decCount decGuildcardEntry 104
      (encAll encGuildcardEntry v.Entries ++ (v.Unknown3 ++ r)) =
      some (v.Entries, v.Unknown3 ++ r) := by
    rw [← h4]
    exact decCount_rt (fun x hx r => GuildcardEntry_rt (h5 x hx) r) _
  have hd : decGuildcardData (encGuildcardData v ++ r) =
      decGuildcardDataBody (encGuildcardData v ++ r) := by
    unfold decGuildcardData
    rw [if_neg hg]
  rw [hd]
  simp only [encGuildcardData, List.append_assoc, decGuildcardDataBody,
    bytes_rt h1.1, bytes_rt h2.1, bytes_rt h3.1, hentries, bytes_rt h6.1,
    Option.pure_def, Option.bind_eq_bind, Option.some_bind]

/-- Character-selection preview record (`CharacterPreview`, character.go). -/
structure CharacterPreview where
  Experience : Nat
  Level : Nat
  GuildcardStr : List Nat
  Unknown : List Nat
  NameColor : Nat
  Model : Nat
  Unused : List Nat
  CharacterInfo : CharacterInfo
  Playtime : Nat

/-- All `CharacterPreview` fields fit their declared widths and lengths. -/
def CharacterPreview.valid (v : CharacterPreview) : Prop :=
  v.Experience < 4294967296 ∧ v.Level < 4294967296 ∧
    bytesOK 16 v.GuildcardStr ∧ w32sOK 2 v.Unknown ∧
    v.NameColor < 4294967296 ∧ v.Model < 256 ∧ bytesOK 15 v.Unused ∧
    v.CharacterInfo.valid ∧ v.Playtime < 4294967296

instance (v : CharacterPreview) : Decidable v.valid := by
  unfold CharacterPreview.valid; infer_instance

/-- Declared wire size of `CharacterPreview`. -/
def CharacterPreview.size : Nat := 124

/-- Packed little-endian encoding of a `CharacterPreview`. -/
def encCharacterPreview (v : CharacterPreview) : List Nat :=
  u32enc v.Experience ++ u32enc v.Level ++ v.GuildcardStr ++
    encW32s v.Unknown ++ u32enc v.NameColor ++ u8enc v.Model ++ v.Unused ++
    encCharacterInfo v.CharacterInfo ++ u32enc v.Playtime

/-- Decode of the first five `CharacterPreview` fields. -/
def decCharacterPreviewPart1 (l : List Nat) :
    Option ((Nat × Nat × List Nat × List Nat × Nat) × List Nat) := do
  let (ex, l) ← u32dec l
  let (lv, l) ← u32dec l
  let (gs, l) ← bytesDec 16 l
  let (un, l) ← decW32s 2 l
  let (nc, l) ← u32dec l
  pure ((ex, lv, gs, un, nc), l)

/-- Decode of the trailing four `CharacterPreview` fields. -/
def decCharacterPreviewPart2 (l : List Nat) :
    Option ((Nat × List Nat × CharacterInfo × Nat) × List Nat) := do
  let (md, l) ← u8dec l
  let (uu, l) ← bytesDec 15 l
  let (ci, l) ← decCharacterInfo l
  let (pt, l) ← u32dec l
  pure ((md, uu, ci, pt), l)

/-- Field-by-field decode of a `CharacterPreview`. -/
def decCharacterPreviewBody (l : List Nat) : Option (CharacterPreview × List Nat) := do
  let ((ex, lv, gs, un, nc), l) ← decCharacterPreviewPart1 l
  let ((md, uu, ci, pt), l) ← decCharacterPreviewPart2 l
  pure (⟨ex, lv, gs, un, nc, md, uu, ci, pt⟩, l)

/-- Decode a `CharacterPreview`, rejecting input shorter than the declared size. -/
def decCharacterPreview (l : List Nat) : Option (CharacterPreview × List Nat) :=
  if l.length < CharacterPreview.size then none else decCharacterPreviewBody l

theorem encCharacterPreview_length {v : CharacterPreview} (h : v.valid) :
    (encCharacterPreview v).length = CharacterPreview.size := by
  obtain ⟨hcpA, hcpB, hcpC, hcpD, hcpE, hcpF, hcpG, hcpH, hcpI⟩ := h
  simp only [encCharacterPreview, List.length_append, u32enc, u8enc,
    List.length_cons, List.length_nil, encW32s_length, hcpC.1, hcpD.1, hcpG.1,
    encCharacterInfo_length hcpH, CharacterInfo.size, CharacterPreview.size]

theorem decCharacterPreview_short {l : List Nat}
    (h : l.length < CharacterPreview.size) : decCharacterPreview l = none := by
  simp [decCharacterPreview, h]

theorem decCharacterPreviewPart1_rt {ex lv nc : Nat} {gs un : List Nat}
    (h1 : ex < 4294967296) (h2 : lv < 4294967296) (h3 : gs.length = 16)
    (h4 : w32sOK 2 un) (h5 : nc < 4294967296) (r : List Nat) :
    decCharacterPreviewPart1
      (u32enc ex ++ (u32enc lv ++ (gs ++ (encW32s un ++ (u32enc nc ++ r))))) =
      some ((ex, lv, gs, un, nc), r) := by
  simp only [decCharacterPreviewPart1, u32_rt h1, u32_rt h2, bytes_rt h3,
    w32s_rt h4, u32_rt h5, Option.pure_def, Option.bind_eq_bind, Option.some_bind]

theorem decCharacterPreviewPart2_rt {md pt : Nat} {uu : List Nat}
    {ci : CharacterInfo} (h1 : md < 256) (h2 : uu.length = 15)
    (h3 : ci.valid) (h4 : pt < 4294967296) (r : List Nat) :
    decCharacterPreviewPart2
      (u8enc md ++ (uu ++ (encCharacterInfo ci ++ (u32enc pt ++ r)))) =
      some ((md, uu, ci, pt), r) := by
  simp only [decCharacterPreviewPart2, u8_rt h1, bytes_rt h2,
    CharacterInfo_rt h3, u32_rt h4,
    Option.pure_def, Option.bind_eq_bind, Option.some_bind]

theorem CharacterPreview_rt {v : CharacterPreview} (h : v.valid) (r : List Nat) :
    decCharacterPreview (encCharacterPreview v ++ r) = some (v, r) := by
  obtain ⟨hcpA, hcpB, hcpC, hcpD, hcpE, hcpF, hcpG, hcpH, hcpI⟩ := h
  have hg : ¬ (encCharacterPreview v ++ r).length < CharacterPreview.size := by
    have := encCharacterPreview_length ⟨hcpA, hcpB, hcpC, hcpD, hcpE, hcpF, hcpG, hcpH, hcpI⟩
    simp only [List.length_append]
    omega
  have hd : decCharacterPreview (encCharacterPreview v ++ r) =
      decCharacterPreviewBody (encCharacterPreview v ++ r) := by
    unfold decCharacterPreview
    rw [if_neg hg]
  rw [hd]
  simp only [encCharacterPreview, List.append_assoc, decCharacterPreviewBody,
    decCharacterPreviewPart1_rt hcpA hcpB hcpC.1 hcpD hcpE,
    decCharacterPreviewPart2_rt hcpF hcpG.1 hcpH hcpI,
    Option.pure_def, Option.bind_eq_bind, Option.some_bind]

/-- Full representation of a character (`FullCharacter`, character.go),
stored identically to the format expected by the E7 packet. -/
structure FullCharacter where
  Inventory : Inventory
  Character : Character
  Unknown : List Nat
  Options : Nat
  QuestData1 : List Nat
  Bank : Bank
  Guildcard : Nat
  Name : List Nat
  TeamName : List Nat
  GuildcardDesc : List Nat
  Reserved1 : Nat
  Reserved2 : Nat
  SectionID : Nat
  CharClass : Nat
  Unknown2 : Nat
  SymbolChats : List Nat
  Shortcuts : List Nat
  Autoreply : List Nat
  Infoboard : List Nat
  Unknown3 : List Nat
  ChallengeData : List Nat
  TechMenu : List Nat
  Unknown4 : List Nat
  QuestData2 : List Nat
  Unknown5 : List Nat
  KeyConfig : List Nat
  JoystickConfig : List Nat
  Guildcard2 : Nat
  TeamID : Nat
  TeamInfo : List Nat
  TeamPrivilege : Nat
  Reserved3 : Nat
  TeamName2 : List Nat
  TeamFlag : List Nat
  TeamRewards : List Nat

/-- All `FullCharacter` fields fit their declared widths and array lengths. -/
def FullCharacter.valid (v : FullCharacter) : Prop :=
  v.Inventory.valid ∧ v.Character.valid ∧ bytesOK 16 v.Unknown ∧
    v.Options < 4294967296 ∧ bytesOK 520 v.QuestData1 ∧ v.Bank.valid ∧
    v.Guildcard < 4294967296 ∧ w16sOK 16 v.Name ∧ w16sOK 16 v.TeamName ∧
    w16sOK 88 v.GuildcardDesc ∧ v.Reserved1 < 256 ∧ v.Reserved2 < 256 ∧
    v.SectionID < 256 ∧ v.CharClass < 256 ∧ v.Unknown2 < 4294967296 ∧
    bytesOK 1248 v.SymbolChats ∧ bytesOK 2624 v.Shortcuts ∧
    w16sOK 172 v.Autoreply ∧ w16sOK 172 v.Infoboard ∧ bytesOK 28 v.Unknown3 ∧
    bytesOK 320 v.ChallengeData ∧ bytesOK 40 v.TechMenu ∧
    bytesOK 44 v.Unknown4 ∧ bytesOK 88 v.QuestData2 ∧ bytesOK 276 v.Unknown5 ∧
    bytesOK 364 v.KeyConfig ∧ bytesOK 56 v.JoystickConfig ∧
    v.Guildcard2 < 4294967296 ∧ v.TeamID < 4294967296 ∧ bytesOK 8 v.TeamInfo ∧
    v.TeamPrivilege < 65536 ∧ v.Reserved3 < 65536 ∧ w16sOK 16 v.TeamName2 ∧
    bytesOK 2048 v.TeamFlag ∧ w32sOK 2 v.TeamRewards

instance (v : FullCharacter) : Decidable v.valid := by
  unfold FullCharacter.valid; infer_instance

/-- Declared wire size of `FullCharacter`. -/
def FullCharacter.size : Nat := 12888

/-- Packed little-endian encoding of a `FullCharacter`, members concatenated
in declared order. -/
def encFullCharacter (v : FullCharacter) : List Nat :=
  encInventory v.Inventory ++ encCharacter v.Character ++ v.Unknown ++
    u32enc v.Options ++ v.QuestData1 ++ encBank v.Bank ++
    u32enc v.Guildcard ++ encW16s v.Name ++ encW16s v.TeamName ++
    encW16s v.GuildcardDesc ++ u8enc v.Reserved1 ++ u8enc v.Reserved2 ++
    u8enc v.SectionID ++ u8enc v.CharClass ++ u32enc v.Unknown2 ++
    v.SymbolChats ++ v.Shortcuts ++ encW16s v.Autoreply ++
    encW16s v.Infoboard ++ v.Unknown3 ++ v.ChallengeData ++ v.TechMenu ++
    v.Unknown4 ++ v.QuestData2 ++ v.Unknown5 ++ v.KeyConfig ++
    v.JoystickConfig ++ u32enc v.Guildcard2 ++ u32enc v.TeamID ++
    v.TeamInfo ++ u16enc v.TeamPrivilege ++ u16enc v.Reserved3 ++
    encW16s v.TeamName2 ++ v.TeamFlag ++ encW32s v.TeamRewards

/-- Decode of `FullCharacter` members 1-6. -/
def decFullCharacterPart1 (l : List Nat) :
    Option ((Inventory × Character × List Nat × Nat × List Nat × Bank) × List Nat) := do
  let (iv, l) ← decInventory l
  let (ch, l) ← decCharacter l
  let (u1, l) ← bytesDec 16 l
  let (op, l) ← u32dec l
  let (q1, l) ← bytesDec 520 l
  let (bk, l) ← decBank l
  pure ((iv, ch, u1, op, q1, bk), l)

/-- Decode of `FullCharacter` members 7-12. -/
def decFullCharacterPart2 (l : List Nat) :
    Option ((Nat × List Nat × List Nat × List Nat × Nat × Nat) × List Nat) := do
  let (gc, l) ← u32dec l
  let (nm, l) ← decW16s 16 l
  let (tn, l) ← decW16s 16 l
  let (gd, l) ← decW16s 88 l
  let (r1, l) ← u8dec l
  let (r2, l) ← u8dec l
  pure ((gc, nm, tn, gd, r1, r2), l)

/-- Decode of `FullCharacter` members 13-18. -/
def decFullCharacterPart3 (l : List Nat) :
    Option ((Nat × Nat × Nat × List Nat × List Nat × List Nat) × List Nat) := do
  let (si, l) ← u8dec l
  let (cc, l) ← u8dec l
  let (u2, l) ← u32dec l
  let (sc, l) ← bytesDec 1248 l
  let (sh, l) ← bytesDec 2624 l
  let (ar, l) ← decW16s 172 l
  pure ((si, cc, u2, sc, sh, ar), l)

/-- Decode of `FullCharacter` members 19-24. -/
def decFullCharacterPart4 (l : List Nat) :
    Option ((List Nat × List Nat × List Nat × List Nat × List Nat × List Nat) × List Nat) := do
  let (ib, l) ← decW16s 172 l
  let (u3, l) ← bytesDec 28 l
  let (cd, l) ← bytesDec 320 l
  let (tm, l) ← bytesDec 40 l
  let (u4, l) ← bytesDec 44 l
  let (q2, l) ← bytesDec 88 l
  pure ((ib, u3, cd, tm, u4, q2), l)

/-- Decode of `FullCharacter` members 25-30. -/
def decFullCharacterPart5 (l : List Nat) :
    Option ((List Nat × List Nat × List Nat × Nat × Nat × List Nat) × List Nat) := do
  let (u5, l) ← bytesDec 276 l
  let (kc, l) ← bytesDec 364 l
  let (jc, l) ← bytesDec 56 l
  let (g2, l) ← u32dec l
  let (ti, l) ← u32dec l
  let (tf, l) ← bytesDec 8 l
  pure ((u5, kc, jc, g2, ti, tf), l)

/-- Decode of `FullCharacter` members 31-35. -/
def decFullCharacterPart6 (l : List Nat) :
    Option ((Nat × Nat × List Nat × List Nat × List Nat) × List Nat) := do
  let (tp, l) ← u16dec l
  let (r3, l) ← u16dec l
  let (t2, l) ← decW16s 16 l
  let (fl, l) ← bytesDec 2048 l
  let (tr, l) ← decW32s 2 l
  pure ((tp, r3, t2, fl, tr), l)

/-- Field-by-field decode of a `FullCharacter`. -/
def decFullCharacterBody (l : List Nat) : Option (FullCharacter × List Nat) := do
  let ((iv, ch, u1, op, q1, bk), l) ← decFullCharacterPart1 l
  let ((gc, nm, tn, gd, r1, r2), l) ← decFullCharacterPart2 l
  let ((si, cc, u2, sc, sh, ar), l) ← decFullCharacterPart3 l
  let ((ib, u3, cd, tm, u4, q2), l) ← decFullCharacterPart4 l
  let ((u5, kc, jc, g2, ti, tf), l) ← decFullCharacterPart5 l
  let ((tp, r3, t2, fl, tr), l) ← decFullCharacterPart6 l
  pure (⟨iv, ch, u1, op, q1, bk, gc, nm, tn, gd, r1, r2, si, cc, u2, sc, sh,
    ar, ib, u3, cd, tm, u4, q2, u5, kc, jc, g2, ti, tf, tp, r3, t2, fl, tr⟩, l)

/-- Decode a `FullCharacter`, rejecting input shorter than the declared size. -/
def decFullCharacter (l : List Nat) : Option (FullCharacter × List Nat) :=
  if l.length < FullCharacter.size then none else decFullCharacterBody l

theorem encFullCharacter_length {v : FullCharacter} (h : v.valid) :
    (encFullCharacter v).length = FullCharacter.size := by
  obtain ⟨hfcA, hfcB, hfcC, hfcD, hfcE, hfcF, hfcG, hfcH, hfcI, hfcJ, hfcK, hfcL, hfcM, hfcN, hfcO,
    hfcP, hfcQ, hfcR, hfcS, hfcT, hfcU, hfcV, hfcW, hfcX, hfcY, hfcZ, hfcAA, hfcAB, hfcAC,
    hfcAD, hfcAE, hfcAF, hfcAG, hfcAH, hfcAI⟩ := h
  simp only [encFullCharacter, List.length_append, encInventory_length hfcA,
    encCharacter_length hfcB, hfcC.1, u32enc_length, hfcE.1, encBank_length hfcF,
    encW16s_length, encW32s_length, hfcH.1, hfcI.1, hfcJ.1, u8enc_length, hfcP.1,
    hfcQ.1, hfcR.1, hfcS.1, hfcT.1, hfcU.1, hfcV.1, hfcW.1, hfcX.1, hfcY.1, hfcZ.1,
    hfcAA.1, hfcAD.1, u16enc_length, hfcAG.1, hfcAH.1, hfcAI.1,
    Inventory.size, Character.size, Bank.size, FullCharacter.size]

theorem decFullCharacter_short {l : List Nat} (h : l.length < FullCharacter.size) :
    decFullCharacter l = none := by
  simp [decFullCharacter, h]

theorem decFullCharacterPart1_rt {iv : Inventory} {ch : Character}
    {u1 q1 : List Nat} {op : Nat} {bk : Bank}
    (h1 : iv.valid) (h2 : ch.valid) (h3 : u1.length = 16)
    (h4 : op < 4294967296) (h5 : q1.length = 520) (h6 : bk.valid) (r : List Nat) :
    decFullCharacterPart1
      (encInventory iv ++ (encCharacter ch ++ (u1 ++ (u32enc op ++
        (q1 ++ (encBank bk ++ r)))))) = some ((iv, ch, u1, op, q1, bk), r) := by
  simp only [decFullCharacterPart1, Inventory_rt h1, Character_rt h2,
    bytes_rt h3, u32_rt h4, bytes_rt h5, Bank_rt h6,
    Option.pure_def, Option.bind_eq_bind, Option.some_bind]

theorem decFullCharacterPart2_rt {gc r1 r2 : Nat} {nm tn gd : List Nat}
    (h1 : gc < 4294967296) (h2 : w16sOK 16 nm) (h3 : w16sOK 16 tn)
    (h4 : w16sOK 88 gd) (h5 : r1 < 256) (h6 : r2 < 256) (r : List Nat) :
    decFullCharacterPart2
      (u32enc gc ++ (encW16s nm ++ (encW16s tn ++ (encW16s gd ++
        (u8enc r1 ++ (u8enc r2 ++ r)))))) = some ((gc, nm, tn, gd, r1, r2), r) := by
  simp only [decFullCharacterPart2, u32_rt h1, w16s_rt h2, w16s_rt h3,
    w16s_rt h4, u8_rt h5, u8_rt h6,
    Option.pure_def, Option.bind_eq_bind, Option.some_bind]

theorem decFullCharacterPart3_rt {si cc u2 : Nat} {sc sh ar : List Nat}
    (h1 : si < 256) (h2 : cc < 256) (h3 : u2 < 4294967296)
    (h4 : sc.length = 1248) (h5 : sh.length = 2624) (h6 : w16sOK 172 ar)
    (r : List Nat) :
    decFullCharacterPart3
      (u8enc si ++ (u8enc cc ++ (u32enc u2 ++ (sc ++ (sh ++
        (encW16s ar ++ r)))))) = some ((si, cc, u2, sc, sh, ar), r) := by
  simp only [decFullCharacterPart3, u8_rt h1, u8_rt h2, u32_rt h3,
    bytes_rt h4, bytes_rt h5, w16s_rt h6,
    Option.pure_def, Option.bind_eq_bind, Option.some_bind]

theorem decFullCharacterPart4_rt {ib u3 cd tm u4 q2 : List Nat}
    (h1 : w16sOK 172 ib) (h2 : u3.length = 28) (h3 : cd.length = 320)
    (h4 : tm.length = 40) (h5 : u4.length = 44) (h6 : q2.length = 88)
    (r : List Nat) :
    decFullCharacterPart4
      (encW16s ib ++ (u3 ++ (cd ++ (tm ++ (u4 ++ (q2 ++ r)))))) =
      some ((ib, u3, cd, tm, u4, q2), r) := by
  simp only [decFullCharacterPart4, w16s_rt h1, bytes_rt h2, bytes_rt h3,
    bytes_rt h4, bytes_rt h5, bytes_rt h6,
    Option.pure_def, Option.bind_eq_bind, Option.some_bind]

theorem decFullCharacterPart5_rt {u5 kc jc tf : List Nat} {g2 ti : Nat}
    (h1 : u5.length = 276) (h2 : kc.length = 364) (h3 : jc.length = 56)
    (h4 : g2 < 4294967296) (h5 : ti < 4294967296) (h6 : tf.length = 8)
    (r : List Nat) :
    decFullCharacterPart5
      (u5 ++ (kc ++ (jc ++ (u32enc g2 ++ (u32enc ti ++ (tf ++ r)))))) =
      some ((u5, kc, jc, g2, ti, tf), r) := by
  simp only [decFullCharacterPart5, bytes_rt h1, bytes_rt h2, bytes_rt h3,
    u32_rt h4, u32_rt h5, bytes_rt h6,
    Option.pure_def, Option.bind_eq_bind, Option.some_bind]

theorem decFullCharacterPart6_rt {tp r3 : Nat} {t2 fl tr : List Nat}
    (h1 : tp < 65536) (h2 : r3 < 65536) (h3 : w16sOK 16 t2)
    (h4 : fl.length = 2048) (h5 : w32sOK 2 tr) (r : List Nat) :
    decFullCharacterPart6
      (u16enc tp ++ (u16enc r3 ++ (encW16s t2 ++ (fl ++ (encW32s tr ++ r))))) =
      some ((tp, r3, t2, fl, tr), r) := by
  simp only [decFullCharacterPart6, u16_rt h1, u16_rt h2, w16s_rt h3,
    bytes_rt h4, w32s_rt h5,
    Option.pure_def, Option.bind_eq_bind, Option.some_bind]

theorem FullCharacter_rt {v : FullCharacter} (h : v.valid) (r : List Nat) :
    decFullCharacter (encFullCharacter v ++ r) = some (v, r) := by
  obtain ⟨hfcA, hfcB, hfcC, hfcD, hfcE, hfcF, hfcG, hfcH, hfcI, hfcJ, hfcK, hfcL, hfcM, hfcN, hfcO,
    hfcP, hfcQ, hfcR, hfcS, hfcT, hfcU, hfcV, hfcW, hfcX, hfcY, hfcZ, hfcAA, hfcAB, hfcAC,
    hfcAD, hfcAE, hfcAF, hfcAG, hfcAH, hfcAI⟩ := h
  have hg : ¬ (encFullCharacter v ++ r).length < FullCharacter.size := by
    have := encFullCharacter_length
      ⟨hfcA, hfcB, hfcC, hfcD, hfcE, hfcF, hfcG, hfcH, hfcI, hfcJ, hfcK, hfcL, hfcM, hfcN, hfcO,
        hfcP, hfcQ, hfcR, hfcS, hfcT, hfcU, hfcV, hfcW, hfcX, hfcY, hfcZ, hfcAA, hfcAB,
        hfcAC, hfcAD, hfcAE, hfcAF, hfcAG, hfcAH, hfcAI⟩
    simp only [List.length_append]
    omega
  have hd : decFullCharacter (encFullCharacter v ++ r) =
      decFullCharacterBody (encFullCharacter v ++ r) := by
    unfold decFullCharacter
    rw [if_neg hg]
  rw [hd]
  simp only [encFullCharacter, List.append_assoc, decFullCharacterBody,
    decFullCharacterPart1_rt hfcA hfcB hfcC.1 hfcD hfcE.1 hfcF,
    decFullCharacterPart2_rt hfcG hfcH hfcI hfcJ hfcK hfcL,
    decFullCharacterPart3_rt hfcM hfcN hfcO hfcP.1 hfcQ.1 hfcR,
    decFullCharacterPart4_rt hfcS hfcT.1 hfcU.1 hfcV.1 hfcW.1 hfcX.1,
    decFullCharacterPart5_rt hfcY.1 hfcZ.1 hfcAA.1 hfcAB hfcAC hfcAD.1,
    decFullCharacterPart6_rt hfcAE hfcAF hfcAG hfcAH.1 hfcAI,
    Option.pure_def, Option.bind_eq_bind, Option.some_bind]

/-! ## Packet framing (`packets.go`)

`util.BytesFromStruct` is modelled from the spec as the packed little-endian
serialization of the struct's fields in declared order.  The `Client` struct
is declared outside the sources at hand; it is modelled from its use in
`packets.go`: a connection handle plus the two per-connection encryption
contexts, each carrying a byte vector. -/

/-- Packet header size constant (`BBHeaderSize`, packets.go). -/
def BBHeaderSize : Nat := 8

/-- Welcome packet type constant (`WelcomeType = 0x03`, packets.go). -/
def WelcomeType : Nat := 3

/-- Disconnect packet type constant (`DisconnectType = 0x05`, packets.go). -/
def DisconnectType : Nat := 5

/-- Login packet type constant (`LoginType = 0x93`, packets.go). -/
def LoginType : Nat := 147

/-- Welcome packet size constant (`WelcomeSize = 0xC8`, packets.go). -/
def WelcomeSize : Nat := 200

/-- The copyright banner string constant (`bbCopyright`, packets.go). -/
def bbCopyright : String :=
  "Phantasy Star Online Blue Burst Game Server. Copyright 1999-2004 SONICTEAM."

/-- The bytes of the banner string (all characters are ASCII). -/
def bbCopyrightBytes : List Nat := bbCopyright.toList.map Char.toNat

/-- Go's `copy` into a freshly zero-filled byte array of length `n`: the
first `min n src.length` bytes come from `src`, the rest stay zero. -/
def goCopyZero (n : Nat) (src : List Nat) : List Nat :=
  src.take n ++ List.replicate (n - src.length) 0

/-- The 96-byte reusable copyright buffer filled by `init` in packets.go:
`copyrightBytes = make([]byte, 96)` then `copy(copyrightBytes, bbCopyright)`. -/
def copyrightBytes : List Nat := goCopyZero 96 bbCopyrightBytes

/-- Result of a transport write: bytes written and an error flag
(the transport collaborator's `write(bytes) -> bytesWritten | error`). -/
structure WriteResult where
  bytesWritten : Nat
  err : Bool

/-- A per-connection encryption context carrying its vector
(modelled from use: `client.clientCrypt.Vector`). -/
structure PSOCrypt where
  Vector : List Nat

/-- A connected client (modelled from use in packets.go): connection handle,
transport write function, and the two encryption contexts. -/
structure Client where
  connId : Nat
  conn : List Nat → WriteResult
  clientCrypt : PSOCrypt
  serverCrypt : PSOCrypt

/-- Packet header (`BBPktHeader`, packets.go).  `PType` embeds the Go field
named `Type` (a Lean keyword). -/
structure BBPktHeader where
  Size : Nat
  PType : Nat
  Padding : Nat

/-- All `BBPktHeader` fields fit their declared widths. -/
def BBPktHeader.valid (v : BBPktHeader) : Prop :=
  v.Size < 65536 ∧ v.PType < 65536 ∧ v.Padding < 4294967296

instance (v : BBPktHeader) : Decidable v.valid := by
  unfold BBPktHeader.valid; infer_instance

/-- Declared wire size of `BBPktHeader`. -/
def BBPktHeader.size : Nat := 8

/-- Packed little-endian encoding of a `BBPktHeader`. -/
def encBBPktHeader (v : BBPktHeader) : List Nat :=
  u16enc v.Size ++ u16enc v.PType ++ u32enc v.Padding

/-- Field-by-field decode of a `BBPktHeader`. -/
def decBBPktHeaderBody (l : List Nat) : Option (BBPktHeader × List Nat) := do
  let (sz, l) ← u16dec l
  let (ty, l) ← u16dec l
  let (pd, l) ← u32dec l
  pure (⟨sz, ty, pd⟩, l)

/-- Decode a `BBPktHeader`, rejecting input shorter than the declared size. -/
def decBBPktHeader (l : List Nat) : Option (BBPktHeader × List Nat) :=
  if l.length < BBPktHeader.size then none else decBBPktHeaderBody l

theorem encBBPktHeader_length (v : BBPktHeader) :
    (encBBPktHeader v).length = BBPktHeader.size := by
  simp [encBBPktHeader, BBPktHeader.size, u16enc, u32enc]

theorem decBBPktHeader_short {l : List Nat} (h : l.length < BBPktHeader.size) :
    decBBPktHeader l = none := by
  simp [decBBPktHeader, h]

theorem BBPktHeader_rt {v : BBPktHeader} (h : v.valid) (r : List Nat) :
    decBBPktHeader (encBBPktHeader v ++ r) = some (v, r) := by
  obtain ⟨h1, h2, h3⟩ := h
  have hg : ¬ (encBBPktHeader v ++ r).length < BBPktHeader.size := by
    have := encBBPktHeader_length v
    simp only [List.length_append]
    omega
  have hd : decBBPktHeader (encBBPktHeader v ++ r) =
      decBBPktHeaderBody (encBBPktHeader v ++ r) := by
    unfold decBBPktHeader
    rw [if_neg hg]
  rw [hd]
  simp only [encBBPktHeader, List.append_assoc, decBBPktHeaderBody,
    u16_rt h1, u16_rt h2, u32_rt h3,
    Option.pure_def, Option.bind_eq_bind, Option.some_bind]

/-- Welcome packet (`WelcomePkt`, packets.go). -/
structure WelcomePkt where
  Header : BBPktHeader
  Copyright : List Nat
  ServerVector : List Nat
  ClientVector : List Nat

/-- All `WelcomePkt` fields fit their declared widths and lengths. -/
def WelcomePkt.valid (v : WelcomePkt) : Prop :=
  v.Header.valid ∧ bytesOK 96 v.Copyright ∧ bytesOK 48 v.ServerVector ∧
    bytesOK 48 v.ClientVector

instance (v : WelcomePkt) : Decidable v.valid := by
  unfold WelcomePkt.valid; infer_instance

/-- Declared wire size of `WelcomePkt`: 8 + 96 + 48 + 48. -/
def WelcomePkt.size : Nat := 200

/-- Packed little-endian encoding of a `WelcomePkt`
(`util.BytesFromStruct(pkt)`, modelled from the spec). -/
def encWelcomePkt (v : WelcomePkt) : List Nat :=
  encBBPktHeader v.Header ++ v.Copyright ++ v.ServerVector ++ v.ClientVector

/-- Field-by-field decode of a `WelcomePkt`. -/
def decWelcomePktBody (l : List Nat) : Option (WelcomePkt × List Nat) := do
  let (hd, l) ← decBBPktHeader l
  let (cp, l) ← bytesDec 96 l
  let (sv, l) ← bytesDec 48 l
  let (cv, l) ← bytesDec 48 l
  pure (⟨hd, cp, sv, cv⟩, l)

/-- Decode a `WelcomePkt`, rejecting input shorter than the declared size. -/
def decWelcomePkt (l : List Nat) : Option (WelcomePkt × List Nat) :=
  if l.length < WelcomePkt.size then none else decWelcomePktBody l

theorem encWelcomePkt_length {v : WelcomePkt} (h : v.valid) :
    (encWelcomePkt v).length = WelcomePkt.size := by
  obtain ⟨h1, h2, h3, h4⟩ := h
  simp only [encWelcomePkt, List.length_append, encBBPktHeader_length,
    h2.1, h3.1, h4.1, BBPktHeader.size, WelcomePkt.size]

theorem decWelcomePkt_short {l : List Nat} (h : l.length < WelcomePkt.size) :
    decWelcomePkt l = none := by
  simp [decWelcomePkt, h]

theorem WelcomePkt_rt {v : WelcomePkt} (h : v.valid) (r : List Nat) :
    decWelcomePkt (encWelcomePkt v ++ r) = some (v, r) := by
  obtain ⟨h1, h2, h3, h4⟩ := h
  have hg : ¬ (encWelcomePkt v ++ r).length < WelcomePkt.size := by
    have := encWelcomePkt_length ⟨h1, h2, h3, h4⟩
    simp only [List.length_append]
    omega
  have hd : decWelcomePkt (encWelcomePkt v ++ r) =
      decWelcomePktBody (encWelcomePkt v ++ r) := by
    unfold decWelcomePkt
    rw [if_neg hg]
  rw [hd]
  simp only [encWelcomePkt, List.append_assoc, decWelcomePktBody,
    BBPktHeader_rt h1, bytes_rt h2.1, bytes_rt h3.1, bytes_rt h4.1,
    Option.pure_def, Option.bind_eq_bind, Option.some_bind]

/-- Model of `SendPacket` (packets.go): writes `pkt[:length]` to the client's
connection once; returns `-1` when the write reports an error and `0`
otherwise.  The byte count returned by the write is ignored by the code
(as its comment states). -/
def SendPacket (client : Client) (pkt : List Nat) (length : Nat) : Int :=
  if (client.conn (pkt.take length)).err then -1 else 0

/-- The `WelcomePkt` value built by `SendWelcome` (packets.go): header
size/type constants, the copyright buffer and the two encryption vectors
copied into the fresh (zero-valued) packet struct. -/
def welcomePktOf (client : Client) : WelcomePkt :=
  { Header := { Size := WelcomeSize, PType := WelcomeType, Padding := 0 },
    Copyright := goCopyZero 96 copyrightBytes,
    ServerVector := goCopyZero 48 client.serverCrypt.Vector,
    ClientVector := goCopyZero 48 client.clientCrypt.Vector }

/-- The serialized welcome frame `SendWelcome` hands to `SendPacket`. -/
def sendWelcomeFrame (client : Client) : List Nat :=
  encWelcomePkt (welcomePktOf client)

/-- Model of `SendWelcome` (packets.go): build the welcome packet and send it. -/
def SendWelcome (client : Client) : Int :=
  SendPacket client (sendWelcomeFrame client) WelcomeSize

/-! ## Configuration (`configuration.go`)

The database handle (`*sql.DB`) is external; it is modelled as an opaque
handle, with `nil` as `Option.none`.  `panic` is modelled as `Except.error`.
-/

/-- Log priority constants (configuration.go). -/
def LogPriorityCritical : Nat := 1

/-- Log priority constant `LogPriorityHigh`. -/
def LogPriorityHigh : Nat := 2

/-- Log priority constant `LogPriorityMedium`. -/
def LogPriorityMedium : Nat := 3

/-- Log priority constant `LogPriorityLow`. -/
def LogPriorityLow : Nat := 4

/-- Opaque stand-in for the external `*sql.DB` handle. -/
structure DBHandle where
  id : Nat

/-- Model of `util.ServerError` as used by `Database` (modelled from use: a message-carrying error). -/
structure ServerError where
  Message : String

/-- The login/character server configuration (`configuration`, configuration.go). -/
structure configuration where
  Hostname : String
  LoginPort : String
  CharacterPort : String
  DBHost : String
  DBPort : String
  DBName : String
  DBUsername : String
  DBPassword : String
  Logfile : String
  LogLevel : Nat
  DebugMode : Bool
  database : Option DBHandle

/-- Model of `enforceDefaults` (configuration.go): fill in defaults for empty
hostname/ports and clamp the log level into `[LogPriorityCritical,
LogPriorityLow]`, replacing out-of-range values by `LogPriorityCritical`. -/
def enforceDefaults (config : configuration) : configuration :=
  { config with
    Hostname := if config.Hostname = "" then "127.0.0.1" else config.Hostname,
    LoginPort := if config.LoginPort = "" then "12000" else config.LoginPort,
    CharacterPort := if config.CharacterPort = "" then "12001" else config.CharacterPort,
    LogLevel :=
      if config.LogLevel < LogPriorityCritical ∨ LogPriorityLow < config.LogLevel
      then LogPriorityCritical else config.LogLevel }

/-- Model of `InitFromFile` (configuration.go): a failed file read returns the read
error; otherwise the unmarshalled configuration (unmarshal errors are
ignored by the code) has defaults enforced and the call succeeds. -/
def InitFromFile (fileContents : Option configuration) : Except String configuration :=
  match fileContents with
  | none => Except.error "read error"
  | some parsed => Except.ok (enforceDefaults parsed)

/-- Model of `Database` (configuration.go): panic (modelled as `Except.error`) on an
uninitialized handle, otherwise return the handle. -/
def Database (config : configuration) : Except ServerError DBHandle :=
  match config.database with
  | none => Except.error { Message := "Attempt to reference uninitialized database" }
  | some db => Except.ok db

/-- Model of `strings.Split(s, ".")` on a character list. -/
def splitDot : List Char → List (List Char)
  | [] => [[]]
  | c :: rest =>
      if c = '.' then [] :: splitDot rest
      else
        match splitDot rest with
        | [] => [[c]]
        | p :: ps => (c :: p) :: ps

/-- Decimal value of a digit string. -/
def decimalValue (cs : List Char) : Nat :=
  cs.foldl (fun acc c => acc * 10 + (c.toNat - 48)) 0

/-- Model of `strconv.ParseUint(s, 10, 8)` with the error ignored, as the code does:
a syntax error yields 0, a range error yields the 8-bit maximum 255. -/
def parseUint8 (cs : List Char) : Nat :=
  if cs ≠ [] ∧ cs.all Char.isDigit then min (decimalValue cs) 255 else 0

/-- Model of `HostnameBytes` (configuration.go): if the first cached byte is the
sentinel 0, split the hostname on dots and parse the first four parts into
the cache; return the cache (`none` models the panic when fewer than four
parts exist).  The result pairs the returned bytes with the cache state
after the call. -/
def HostnameBytes (hostname : String) (cachedHostBytes : List Nat) :
    Option (List Nat × List Nat) :=
  if cachedHostBytes.getD 0 0 = 0 then
    match splitDot hostname.toList with
    | p0 :: p1 :: p2 :: p3 :: _ =>
        let fresh := [parseUint8 p0, parseUint8 p1, parseUint8 p2, parseUint8 p3]
        some (fresh, fresh)
    | _ => none
  else some (cachedHostBytes, cachedHostBytes)

/-! ## Canonical zero values

Fresh Go struct values are zero-valued; these model `new(T)` results and
serve as concrete sample inputs. -/

theorem bytesOK_replicate (k : Nat) : bytesOK k (List.replicate k 0) :=
  ⟨List.length_replicate k 0, fun b hb => by
    rw [List.eq_of_mem_replicate hb]; exact Nat.zero_lt_succ _⟩

theorem w16sOK_replicate (k : Nat) : w16sOK k (List.replicate k 0) :=
  ⟨List.length_replicate k 0, fun b hb => by
    rw [List.eq_of_mem_replicate hb]; exact Nat.zero_lt_succ _⟩

theorem w32sOK_replicate (k : Nat) : w32sOK k (List.replicate k 0) :=
  ⟨List.length_replicate k 0, fun b hb => by
    rw [List.eq_of_mem_replicate hb]; exact Nat.zero_lt_succ _⟩

/-- Zero-valued `Item`. -/
def Item.zero : Item := ⟨0, 0, 0, 0, 0⟩

theorem Item_zero_valid : Item.zero.valid := by decide

/-- Zero-valued `Inventory`. -/
def Inventory.zero : Inventory := ⟨0, 0, 0, 0, List.replicate 30 Item.zero⟩

theorem Inventory_zero_valid : Inventory.zero.valid := by
  refine ⟨zero_lt_u8, zero_lt_u8, zero_lt_u8, zero_lt_u8, List.length_replicate _ _, ?_⟩
  intro x hx
  rw [List.eq_of_mem_replicate hx]
  exact Item_zero_valid

/-- Zero-valued `BankItem`. -/
def BankItem.zero : BankItem := ⟨0, 0, 0, 0, 0⟩

theorem BankItem_zero_valid : BankItem.zero.valid := by decide

/-- Zero-valued `Bank`. -/
def Bank.zero : Bank := ⟨0, 0, List.replicate 200 BankItem.zero⟩

theorem Bank_zero_valid : Bank.zero.valid := by
  refine ⟨zero_lt_u32, zero_lt_u32, List.length_replicate _ _, ?_⟩
  intro x hx
  rw [List.eq_of_mem_replicate hx]
  exact BankItem_zero_valid

/-- Zero-valued `CharacterStats`. -/
def CharacterStats.zero : CharacterStats := ⟨0, 0, 0, 0, 0, 0, 0, 0⟩

theorem CharacterStats_zero_valid : CharacterStats.zero.valid := by decide

/-- Zero-valued `CharacterInfo`. -/
def CharacterInfo.zero : CharacterInfo :=
  ⟨0, 0, 0, 0, 0, 0, 0, 0, 0, 0, 0, 0, 0, 0, 0, 0, List.replicate 16 0⟩

theorem CharacterInfo_zero_valid : CharacterInfo.zero.valid :=
  ⟨zero_lt_u32, zero_lt_u8, zero_lt_u8, zero_lt_u8, zero_lt_u8, zero_lt_u32,
    zero_lt_u16, zero_lt_u16, zero_lt_u16, zero_lt_u16, zero_lt_u16,
    zero_lt_u16, zero_lt_u16, zero_lt_u16, zero_lt_u32, zero_lt_u32,
    w16sOK_replicate 16⟩

/-- Zero-valued `Character`. -/
def Character.zero : Character :=
  ⟨CharacterStats.zero, List.replicate 8 0, 0, 0, 0, List.replicate 24 0, 0, 0,
    List.replicate 11 0, 0, CharacterInfo.zero, List.replicate 232 0,
    List.replicate 20 0⟩

theorem Character_zero_valid : Character.zero.valid :=
  ⟨CharacterStats_zero_valid, bytesOK_replicate 8, zero_lt_u32, zero_lt_u32,
    zero_lt_u32, bytesOK_replicate 24, zero_lt_u32, zero_lt_u8,
    bytesOK_replicate 11, zero_lt_u32, CharacterInfo_zero_valid,
    bytesOK_replicate 232, bytesOK_replicate 20⟩

/-- Zero-valued `GuildcardEntry`. -/
def GuildcardEntry.zero : GuildcardEntry :=
  ⟨0, List.replicate 24 0, List.replicate 16 0, List.replicate 88 0, 0, 0, 0,
    0, 0, List.replicate 88 0⟩

theorem GuildcardEntry_zero_valid : GuildcardEntry.zero.valid :=
  ⟨zero_lt_u32, w16sOK_replicate 24, w16sOK_replicate 16, w16sOK_replicate 88,
    zero_lt_u8, zero_lt_u8, zero_lt_u8, zero_lt_u8, zero_lt_u32,
    w16sOK_replicate 88⟩

/-- Zero-valued `GuildcardData`. -/
def GuildcardData.zero : GuildcardData :=
  ⟨List.replicate 276 0, List.replicate 7656 0, List.replicate 120 0,
    List.replicate 104 GuildcardEntry.zero, List.replicate 444 0⟩

theorem GuildcardData_zero_valid : GuildcardData.zero.valid := by
  refine ⟨bytesOK_replicate 276, bytesOK_replicate 7656, bytesOK_replicate 120,
    List.length_replicate _ _, ?_, bytesOK_replicate 444⟩
  intro x hx
  rw [List.eq_of_mem_replicate hx]
  exact GuildcardEntry_zero_valid

/-- Zero-valued `CharacterPreview`. -/
def CharacterPreview.zero : CharacterPreview :=
  ⟨0, 0, List.replicate 16 0, List.replicate 2 0, 0, 0, List.replicate 15 0,
    CharacterInfo.zero, 0⟩

theorem CharacterPreview_zero_valid : CharacterPreview.zero.valid :=
  ⟨zero_lt_u32, zero_lt_u32, bytesOK_replicate 16, w32sOK_replicate 2,
    zero_lt_u32, zero_lt_u8, bytesOK_replicate 15, CharacterInfo_zero_valid,
    zero_lt_u32⟩

/-- Zero-valued `FullCharacter`. -/
def FullCharacter.zero : FullCharacter :=
  ⟨Inventory.zero, Character.zero, List.replicate 16 0, 0,
    List.replicate 520 0, Bank.zero, 0, List.replicate 16 0,
    List.replicate 16 0, List.replicate 88 0, 0, 0, 0, 0, 0,
    List.replicate 1248 0, List.replicate 2624 0, List.replicate 172 0,
    List.replicate 172 0, List.replicate 28 0, List.replicate 320 0,
    List.replicate 40 0, List.replicate 44 0, List.replicate 88 0,
    List.replicate 276 0, List.replicate 364 0, List.replicate 56 0, 0, 0,
    List.replicate 8 0, 0, 0, List.replicate 16 0, List.replicate 2048 0,
    List.replicate 2 0⟩

theorem FullCharacter_zero_valid : FullCharacter.zero.valid :=
  ⟨Inventory_zero_valid, Character_zero_valid, bytesOK_replicate 16,
    zero_lt_u32, bytesOK_replicate 520, Bank_zero_valid, zero_lt_u32,
    w16sOK_replicate 16, w16sOK_replicate 16, w16sOK_replicate 88,
    zero_lt_u8, zero_lt_u8, zero_lt_u8, zero_lt_u8, zero_lt_u32,
    bytesOK_replicate 1248, bytesOK_replicate 2624, w16sOK_replicate 172,
    w16sOK_replicate 172, bytesOK_replicate 28, bytesOK_replicate 320,
    bytesOK_replicate 40, bytesOK_replicate 44, bytesOK_replicate 88,
    bytesOK_replicate 276, bytesOK_replicate 364, bytesOK_replicate 56,
    zero_lt_u32, zero_lt_u32, bytesOK_replicate 8, zero_lt_u16, zero_lt_u16,
    w16sOK_replicate 16, bytesOK_replicate 2048, w32sOK_replicate 2⟩

/-- Zero-valued `BBPktHeader`. -/
def BBPktHeader.zero : BBPktHeader := ⟨0, 0, 0⟩

theorem BBPktHeader_zero_valid : BBPktHeader.zero.valid := by decide

/-- Zero-valued `WelcomePkt`. -/
def WelcomePkt.zero : WelcomePkt :=
  ⟨BBPktHeader.zero, List.replicate 96 0, List.replicate 48 0,
    List.replicate 48 0⟩

theorem WelcomePkt_zero_valid : WelcomePkt.zero.valid :=
  ⟨BBPktHeader_zero_valid, bytesOK_replicate 96, bytesOK_replicate 48,
    bytesOK_replicate 48⟩

/-! ## Claims -/

/-- C3: for every valid value of every record type defined by this layer
(including `GuildcardData` and `FullCharacter` with their opaque
Unknown/reserved byte ranges), decoding the encoding yields the original
value field-by-field, with every opaque/reserved byte range preserved
bit-for-bit. -/
theorem claim_C3_roundtrip :
    (∀ v : GuildcardData, v.valid → decGuildcardData (encGuildcardData v) = some (v, [])) ∧
    (∀ v : FullCharacter, v.valid → decFullCharacter (encFullCharacter v) = some (v, [])) ∧
    (∀ v : Item, v.valid → decItem (encItem v) = some (v, [])) ∧
    (∀ v : Inventory, v.valid → decInventory (encInventory v) = some (v, [])) ∧
    (∀ v : BankItem, v.valid → decBankItem (encBankItem v) = some (v, [])) ∧
    (∀ v : Bank, v.valid → decBank (encBank v) = some (v, [])) ∧
    (∀ v : CharacterStats, v.valid → decCharacterStats (encCharacterStats v) = some (v, [])) ∧
    (∀ v : CharacterInfo, v.valid → decCharacterInfo (encCharacterInfo v) = some (v, [])) ∧
    (∀ v : Character, v.valid → decCharacter (encCharacter v) = some (v, [])) ∧
    (∀ v : GuildcardEntry, v.valid → decGuildcardEntry (encGuildcardEntry v) = some (v, [])) ∧
    (∀ v : CharacterPreview, v.valid → decCharacterPreview (encCharacterPreview v) = some (v, [])) ∧
    (∀ v : BBPktHeader, v.valid → decBBPktHeader (encBBPktHeader v) = some (v, [])) ∧
    (∀ v : WelcomePkt, v.valid → decWelcomePkt (encWelcomePkt v) = some (v, [])) :=
  ⟨fun _ h => by simpa using GuildcardData_rt h [],
    fun _ h => by simpa using FullCharacter_rt h [],
    fun _ h => by simpa using Item_rt h [],
    fun _ h => by simpa using Inventory_rt h [],
    fun _ h => by simpa using BankItem_rt h [],
    fun _ h => by simpa using Bank_rt h [],
    fun _ h => by simpa using CharacterStats_rt h [],
    fun _ h => by simpa using CharacterInfo_rt h [],
    fun _ h => by simpa using Character_rt h [],
    fun _ h => by simpa using GuildcardEntry_rt h [],
    fun _ h => by simpa using CharacterPreview_rt h [],
    fun _ h => by simpa using BBPktHeader_rt h [],
    fun _ h => by simpa using WelcomePkt_rt h []⟩

/-- Witness for C3 at the zero values of each record type. -/
theorem claim_C3_roundtrip_witness :
    decGuildcardData (encGuildcardData GuildcardData.zero) = some (GuildcardData.zero, []) ∧
    decFullCharacter (encFullCharacter FullCharacter.zero) = some (FullCharacter.zero, []) ∧
    decItem (encItem Item.zero) = some (Item.zero, []) ∧
    decInventory (encInventory Inventory.zero) = some (Inventory.zero, []) ∧
    decBankItem (encBankItem BankItem.zero) = some (BankItem.zero, []) ∧
    decBank (encBank Bank.zero) = some (Bank.zero, []) ∧
    decCharacterStats (encCharacterStats CharacterStats.zero) = some (CharacterStats.zero, []) ∧
    decCharacterInfo (encCharacterInfo CharacterInfo.zero) = some (CharacterInfo.zero, []) ∧
    decCharacter (encCharacter Character.zero) = some (Character.zero, []) ∧
    decGuildcardEntry (encGuildcardEntry GuildcardEntry.zero) = some (GuildcardEntry.zero, []) ∧
    decCharacterPreview (encCharacterPreview CharacterPreview.zero) = some (CharacterPreview.zero, []) ∧
    decBBPktHeader (encBBPktHeader BBPktHeader.zero) = some (BBPktHeader.zero, []) ∧
    decWelcomePkt (encWelcomePkt WelcomePkt.zero) = some (WelcomePkt.zero, []) :=
  by
  obtain ⟨pgd, pfc, pit, pin, pbi, pbk, pcs, pci, pch, pge, pcp, phd, pwp⟩ :=
    claim_C3_roundtrip
  exact ⟨pgd GuildcardData.zero GuildcardData_zero_valid,
    pfc FullCharacter.zero FullCharacter_zero_valid,
    pit Item.zero Item_zero_valid,
    pin Inventory.zero Inventory_zero_valid,
    pbi BankItem.zero BankItem_zero_valid,
    pbk Bank.zero Bank_zero_valid,
    pcs CharacterStats.zero CharacterStats_zero_valid,
    pci CharacterInfo.zero CharacterInfo_zero_valid,
    pch Character.zero Character_zero_valid,
    pge GuildcardEntry.zero GuildcardEntry_zero_valid,
    pcp CharacterPreview.zero CharacterPreview_zero_valid,
    phd BBPktHeader.zero BBPktHeader_zero_valid,
    pwp WelcomePkt.zero WelcomePkt_zero_valid⟩

/-- C5: for every record type, encoding any valid in-memory value produces
output of exactly the declared constant byte length; in particular an
`Inventory` always encodes to 4 + 30*20 = 604 bytes regardless of `NumItems`
or the `Items` contents. -/
theorem claim_C5_fixed_size :
    (∀ v : Inventory, v.valid → (encInventory v).length = 4 + 30 * 20) ∧
    (∀ v : Item, v.valid → (encItem v).length = 20) ∧
    (∀ v : BankItem, v.valid → (encBankItem v).length = 16) ∧
    (∀ v : Bank, v.valid → (encBank v).length = 3208) ∧
    (∀ v : CharacterStats, v.valid → (encCharacterStats v).length = 16) ∧
    (∀ v : CharacterInfo, v.valid → (encCharacterInfo v).length = 68) ∧
    (∀ v : Character, v.valid → (encCharacter v).length = 400) ∧
    (∀ v : GuildcardEntry, v.valid → (encGuildcardEntry v).length = 444) ∧
    (∀ v : GuildcardData, v.valid → (encGuildcardData v).length = 54672) ∧
    (∀ v : CharacterPreview, v.valid → (encCharacterPreview v).length = 124) ∧
    (∀ v : FullCharacter, v.valid → (encFullCharacter v).length = 12888) ∧
    (∀ v : BBPktHeader, v.valid → (encBBPktHeader v).length = 8) ∧
    (∀ v : WelcomePkt, v.valid → (encWelcomePkt v).length = 200) :=
  ⟨fun _ h => by simpa [Inventory.size] using encInventory_length h,
    fun v _ => by simpa [Item.size] using encItem_length v,
    fun v _ => by simpa [BankItem.size] using encBankItem_length v,
    fun _ h => by simpa [Bank.size] using encBank_length h,
    fun v _ => by simpa [CharacterStats.size] using encCharacterStats_length v,
    fun _ h => by simpa [CharacterInfo.size] using encCharacterInfo_length h,
    fun _ h => by simpa [Character.size] using encCharacter_length h,
    fun _ h => by simpa [GuildcardEntry.size] using encGuildcardEntry_length h,
    fun _ h => by simpa [GuildcardData.size] using encGuildcardData_length h,
    fun _ h => by simpa [CharacterPreview.size] using encCharacterPreview_length h,
    fun _ h => by simpa [FullCharacter.size] using encFullCharacter_length h,
    fun v _ => by simpa [BBPktHeader.size] using encBBPktHeader_length v,
    fun _ h => by simpa [WelcomePkt.size] using encWelcomePkt_length h⟩

/-- Witness for C5 at the zero values of each record type. -/
theorem claim_C5_fixed_size_witness :
    (encInventory Inventory.zero).length = 4 + 30 * 20 ∧
    (encItem Item.zero).length = 20 ∧
    (encBankItem BankItem.zero).length = 16 ∧
    (encBank Bank.zero).length = 3208 ∧
    (encCharacterStats CharacterStats.zero).length = 16 ∧
    (encCharacterInfo CharacterInfo.zero).length = 68 ∧
    (encCharacter Character.zero).length = 400 ∧
    (encGuildcardEntry GuildcardEntry.zero).length = 444 ∧
    (encGuildcardData GuildcardData.zero).length = 54672 ∧
    (encCharacterPreview CharacterPreview.zero).length = 124 ∧
    (encFullCharacter FullCharacter.zero).length = 12888 ∧
    (encBBPktHeader BBPktHeader.zero).length = 8 ∧
    (encWelcomePkt WelcomePkt.zero).length = 200 :=
  by
  obtain ⟨sin, sit, sbi, sbk, scs, sci, sch, sge, sgd, scp, sfc, shd, swp⟩ :=
    claim_C5_fixed_size
  exact ⟨sin Inventory.zero Inventory_zero_valid,
    sit Item.zero Item_zero_valid,
    sbi BankItem.zero BankItem_zero_valid,
    sbk Bank.zero Bank_zero_valid,
    scs CharacterStats.zero CharacterStats_zero_valid,
    sci CharacterInfo.zero CharacterInfo_zero_valid,
    sch Character.zero Character_zero_valid,
    sge GuildcardEntry.zero GuildcardEntry_zero_valid,
    sgd GuildcardData.zero GuildcardData_zero_valid,
    scp CharacterPreview.zero CharacterPreview_zero_valid,
    sfc FullCharacter.zero FullCharacter_zero_valid,
    shd BBPktHeader.zero BBPktHeader_zero_valid,
    swp WelcomePkt.zero WelcomePkt_zero_valid⟩

/-- C8: for every decode attempt on any record type, an input buffer shorter
than the record's declared constant size is rejected as malformed (the
decoder returns `none`, the modelled ShapeError); the decode never silently
truncates or proceeds with partial input. -/
theorem claim_C8_decode_rejects_short :
    (∀ l : List Nat, l.length < 20 → decItem l = none) ∧
    (∀ l : List Nat, l.length < 604 → decInventory l = none) ∧
    (∀ l : List Nat, l.length < 16 → decBankItem l = none) ∧
    (∀ l : List Nat, l.length < 3208 → decBank l = none) ∧
    (∀ l : List Nat, l.length < 16 → decCharacterStats l = none) ∧
    (∀ l : List Nat, l.length < 68 → decCharacterInfo l = none) ∧
    (∀ l : List Nat, l.length < 400 → decCharacter l = none) ∧
    (∀ l : List Nat, l.length < 444 → decGuildcardEntry l = none) ∧
    (∀ l : List Nat, l.length < 54672 → decGuildcardData l = none) ∧
    (∀ l : List Nat, l.length < 124 → decCharacterPreview l = none) ∧
    (∀ l : List Nat, l.length < 12888 → decFullCharacter l = none) ∧
    (∀ l : List Nat, l.length < 8 → decBBPktHeader l = none) ∧
    (∀ l : List Nat, l.length < 200 → decWelcomePkt l = none) :=
  ⟨fun _ h => decItem_short h,
    fun _ h => decInventory_short h,
    fun _ h => decBankItem_short h,
    fun _ h => decBank_short h,
    fun _ h => decCharacterStats_short h,
    fun _ h => decCharacterInfo_short h,
    fun _ h => decCharacter_short h,
    fun _ h => decGuildcardEntry_short h,
    fun _ h => decGuildcardData_short h,
    fun _ h => decCharacterPreview_short h,
    fun _ h => decFullCharacter_short h,
    fun _ h => decBBPktHeader_short h,
    fun _ h => decWelcomePkt_short h⟩

/-- Witness for C8 at the empty input buffer. -/
theorem claim_C8_decode_rejects_short_witness :
    decItem [] = none ∧ decInventory [] = none ∧ decBankItem [] = none ∧
    decBank [] = none ∧ decCharacterStats [] = none ∧
    decCharacterInfo [] = none ∧ decCharacter [] = none ∧
    decGuildcardEntry [] = none ∧ decGuildcardData [] = none ∧
    decCharacterPreview [] = none ∧ decFullCharacter [] = none ∧
    decBBPktHeader [] = none ∧ decWelcomePkt [] = none :=
  by
  obtain ⟨rit, rin, rbi, rbk, rcs, rci, rch, rge, rgd, rcp, rfc, rhd, rwp⟩ :=
    claim_C8_decode_rejects_short
  refine ⟨rit [] ?_, rin [] ?_, rbi [] ?_, rbk [] ?_, rcs [] ?_, rci [] ?_,
    rch [] ?_, rge [] ?_, rgd [] ?_, rcp [] ?_, rfc [] ?_, rhd [] ?_,
    rwp [] ?_⟩ <;> decide

/-- Go `copy` into a fresh zero array is the identity when the source has
exactly the declared length. -/
theorem goCopyZero_of_length {n : Nat} {src : List Nat} (h : src.length = n) :
    goCopyZero n src = src := by
  subst h
  simp [goCopyZero]

set_option maxRecDepth 100000 in
theorem copyrightBytes_length : copyrightBytes.length = 96 := by decide

set_option maxRecDepth 1000000 in
/-- C1: for every client whose encryption context supplies two 48-byte
vectors, `SendWelcome` builds a 200-byte frame: an 8-byte little-endian
header with size field 200 and type field the welcome constant 0x03, the
96-byte copyright banner zero-padded after the (shorter than 96 bytes)
string at offset 8, the server vector at offset 104 and the client vector
at offset 152. -/
theorem claim_C1_welcome_frame (client : Client)
    (hs : client.serverCrypt.Vector.length = 48)
    (hc : client.clientCrypt.Vector.length = 48) :
    (sendWelcomeFrame client).length = 200 ∧
    (sendWelcomeFrame client).take 2 = u16enc 200 ∧
    ((sendWelcomeFrame client).drop 2).take 2 = u16enc WelcomeType ∧
    ((sendWelcomeFrame client).drop 8).take 96 = copyrightBytes ∧
    copyrightBytes = bbCopyrightBytes ++ List.replicate (96 - bbCopyrightBytes.length) 0 ∧
    bbCopyrightBytes.length < 96 ∧
    ((sendWelcomeFrame client).drop 104).take 48 = client.serverCrypt.Vector ∧
    ((sendWelcomeFrame client).drop 152).take 48 = client.clientCrypt.Vector := by
  have hframe : sendWelcomeFrame client =
      [200, 0, 3, 0, 0, 0, 0, 0] ++ (copyrightBytes ++
        (client.serverCrypt.Vector ++ client.clientCrypt.Vector)) := by
    simp [sendWelcomeFrame, welcomePktOf, encWelcomePkt, encBBPktHeader,
      WelcomeSize, WelcomeType, u16enc, u32enc,
      goCopyZero_of_length hs, goCopyZero_of_length hc,
      goCopyZero_of_length copyrightBytes_length]
  have hdrop8 : (sendWelcomeFrame client).drop 8 =
      copyrightBytes ++ (client.serverCrypt.Vector ++ client.clientCrypt.Vector) := by
    rw [hframe]
    rfl
  have hdrop104 : (sendWelcomeFrame client).drop 104 =
      client.serverCrypt.Vector ++ client.clientCrypt.Vector := by
    rw [show (104 : Nat) = 8 + 96 from rfl, ← List.drop_drop, hdrop8,
      List.drop_left' copyrightBytes_length]
  refine ⟨?_, ?_, ?_, ?_, by decide, by decide, ?_, ?_⟩
  · rw [hframe]
    simp [copyrightBytes_length, hs, hc]
  · rw [hframe]
    rfl
  · rw [hframe]
    rfl
  · rw [hdrop8, List.take_left' copyrightBytes_length]
  · rw [hdrop104, List.take_left' hs]
  · rw [show (152 : Nat) = 104 + 48 from rfl, ← List.drop_drop, hdrop104,
      List.drop_left' hs, ← hc, List.take_length]

/-- A sample client whose crypt contexts carry distinct 48-byte vectors. -/
def welcomeExampleClient : Client :=
  { connId := 0, conn := fun _ => { bytesWritten := 200, err := false },
    clientCrypt := ⟨List.replicate 48 2⟩, serverCrypt := ⟨List.replicate 48 1⟩ }

/-- Witness for C1 at a concrete client. -/
theorem claim_C1_welcome_frame_witness :
    (sendWelcomeFrame welcomeExampleClient).length = 200 ∧
    ((sendWelcomeFrame welcomeExampleClient).drop 104).take 48 =
      welcomeExampleClient.serverCrypt.Vector ∧
    ((sendWelcomeFrame welcomeExampleClient).drop 152).take 48 =
      welcomeExampleClient.clientCrypt.Vector :=
  by
  obtain ⟨wlen, _, _, _, _, _, wsrv, wcli⟩ :=
    claim_C1_welcome_frame welcomeExampleClient (by decide) (by decide)
  exact ⟨wlen, wsrv, wcli⟩

/-- Dropping past a prefix of known length shifts the drop index. -/
theorem drop_shift {α : Type} {x y : List α} {n : Nat} (m : Nat)
    (h : x.length = n) : (x ++ y).drop (n + m) = y.drop m := by
  subst h
  rw [List.drop_append]

/-- The trailing 29 members of `FullCharacter` (everything after `Bank`). -/
def fullCharacterTail (v : FullCharacter) : List Nat :=
  u32enc v.Guildcard ++ encW16s v.Name ++ encW16s v.TeamName ++
    encW16s v.GuildcardDesc ++ u8enc v.Reserved1 ++ u8enc v.Reserved2 ++
    u8enc v.SectionID ++ u8enc v.CharClass ++ u32enc v.Unknown2 ++
    v.SymbolChats ++ v.Shortcuts ++ encW16s v.Autoreply ++
    encW16s v.Infoboard ++ v.Unknown3 ++ v.ChallengeData ++ v.TechMenu ++
    v.Unknown4 ++ v.QuestData2 ++ v.Unknown5 ++ v.KeyConfig ++
    v.JoystickConfig ++ u32enc v.Guildcard2 ++ u32enc v.TeamID ++
    v.TeamInfo ++ u16enc v.TeamPrivilege ++ u16enc v.Reserved3 ++
    encW16s v.TeamName2 ++ v.TeamFlag ++ encW32s v.TeamRewards

/-- C2: inside `FullCharacter` each embedded member starts at the sum of the
sizes of all preceding members; in particular `Bank` begins at offset
604 (Inventory) + 400 (Character) + 540 (Unknown[16]/Options/QuestData1[520])
= 1544, under the packed little-endian wire layout. -/
theorem claim_C2_fullcharacter_offsets (v : FullCharacter) (h : v.valid) :
    (encFullCharacter v).take 604 = encInventory v.Inventory ∧
    ((encFullCharacter v).drop 604).take 400 = encCharacter v.Character ∧
    ((encFullCharacter v).drop 1544).take 3208 = encBank v.Bank ∧
    (encInventory v.Inventory).length = 604 ∧
    (encCharacter v.Character).length = 400 ∧
    v.Unknown.length + (u32enc v.Options).length + v.QuestData1.length = 540 := by
  have e1 : (encInventory v.Inventory).length = 604 := by
    simpa [Inventory.size] using encInventory_length h.1
  have e2 : (encCharacter v.Character).length = 400 := by
    simpa [Character.size] using encCharacter_length h.2.1
  have e3 : v.Unknown.length = 16 := h.2.2.1.1
  have e5 : v.QuestData1.length = 520 := h.2.2.2.2.1.1
  have e6 : (encBank v.Bank).length = 3208 := by
    simpa [Bank.size] using encBank_length h.2.2.2.2.2.1
  have hsplit : encFullCharacter v =
      encInventory v.Inventory ++ (encCharacter v.Character ++ (v.Unknown ++
        (u32enc v.Options ++ (v.QuestData1 ++ (encBank v.Bank ++
          fullCharacterTail v))))) := by
    simp [encFullCharacter, fullCharacterTail, List.append_assoc]
  refine ⟨?_, ?_, ?_, e1, e2, ?_⟩
  · rw [hsplit, List.take_left' e1]
  · rw [hsplit, List.drop_left' e1, List.take_left' e2]
  · rw [hsplit, show (1544 : Nat) = 604 + 940 from rfl, drop_shift 940 e1,
      show (940 : Nat) = 400 + 540 from rfl, drop_shift 540 e2,
      show (540 : Nat) = 16 + 524 from rfl, drop_shift 524 e3,
      show (524 : Nat) = 4 + 520 from rfl, drop_shift 520 (u32enc_length v.Options),
      show (520 : Nat) = 520 + 0 from rfl, drop_shift 0 e5, List.drop_zero,
      List.take_left' e6]
  · rw [e3, e5, u32enc_length]

/-- Witness for C2 at the zero-valued `FullCharacter`. -/
theorem claim_C2_fullcharacter_offsets_witness :
    ((encFullCharacter FullCharacter.zero).drop 1544).take 3208 =
      encBank FullCharacter.zero.Bank ∧
    (encInventory FullCharacter.zero.Inventory).length = 604 ∧
    (encCharacter FullCharacter.zero.Character).length = 400 :=
  by
  obtain ⟨_, _, obank, oinv, ochr, _⟩ :=
    claim_C2_fullcharacter_offsets FullCharacter.zero FullCharacter_zero_valid
  exact ⟨obank, oinv, ochr⟩

/-- A client whose transport accepts zero bytes but reports no error. -/
def shortWriteClient : Client :=
  { connId := 0, conn := fun _ => { bytesWritten := 0, err := false },
    clientCrypt := ⟨[]⟩, serverCrypt := ⟨[]⟩ }

/-- C4 counterexample: the transport accepts 0 of the 1 requested bytes and
reports no error, yet `SendPacket` returns 0 (success), not the failure the
claim requires for a short write; the code only tests the error result and
ignores the byte count. -/
theorem claim_C4_short_write_counterexample :
    (shortWriteClient.conn ([7].take 1)).bytesWritten < 1 ∧
    (shortWriteClient.conn ([7].take 1)).err = false ∧
    SendPacket shortWriteClient [7] 1 = 0 ∧
    SendPacket shortWriteClient [7] 1 ≠ -1 :=
  ⟨Nat.zero_lt_one, rfl, rfl, by decide⟩

/-- C4 amended: `SendPacket` reports failure exactly when the transport
write reports an error; the bytes-written count is ignored, so a short
write without a transport error is reported as success.  It performs the
single write and never retries internally. -/
theorem claim_C4_send_failure_iff_transport_error :
    ∀ (client : Client) (pkt : List Nat) (length : Nat),
      (SendPacket client pkt length = 0 ↔ (client.conn (pkt.take length)).err = false) ∧
      (SendPacket client pkt length = -1 ↔ (client.conn (pkt.take length)).err = true) := by
  intro c p n
  unfold SendPacket
  rcases h : (c.conn (p.take n)).err
  · simp
  · simp

/-- C6: encoding is deterministic; the welcome frame built by `SendWelcome`
depends only on the encryption vectors, so two clients with identical
vectors receive byte-identical frames, fields serialized in declared order
both times. -/
theorem claim_C6_deterministic_encoding :
    ∀ c c' : Client, c.serverCrypt.Vector = c'.serverCrypt.Vector →
      c.clientCrypt.Vector = c'.clientCrypt.Vector →
      sendWelcomeFrame c = sendWelcomeFrame c' := by
  intro c c' h1 h2
  simp [sendWelcomeFrame, welcomePktOf, h1, h2]

/-- A sample client with a healthy transport. -/
def clientA : Client :=
  ⟨1, fun _ => ⟨200, false⟩, ⟨List.replicate 48 2⟩, ⟨List.replicate 48 1⟩⟩

/-- A second client, distinct connection and transport, same vectors. -/
def clientB : Client :=
  ⟨2, fun _ => ⟨0, true⟩, ⟨List.replicate 48 2⟩, ⟨List.replicate 48 1⟩⟩

/-- Witness for C6: two distinct clients with equal vectors get equal frames. -/
theorem claim_C6_deterministic_encoding_witness :
    sendWelcomeFrame clientA = sendWelcomeFrame clientB :=
  claim_C6_deterministic_encoding clientA clientB rfl rfl

set_option maxRecDepth 100000 in
/-- C7: with hostname "127.0.0.1" and the zero-initialized cache, the first
`HostnameBytes` call computes `[127,0,0,1]` and stores it; a second call on
the resulting cache returns the identical bytes and leaves the cache
unchanged (first-byte-zero is the not-yet-computed sentinel). -/
theorem claim_C7_hostname_bytes_cached :
    HostnameBytes "127.0.0.1" (List.replicate 4 0) =
      some ([127, 0, 0, 1], [127, 0, 0, 1]) ∧
    HostnameBytes "127.0.0.1" [127, 0, 0, 1] =
      some ([127, 0, 0, 1], [127, 0, 0, 1]) :=
  ⟨by decide, by decide⟩

/-- C9: `Database` aborts loudly (the modelled panic) when the handle is
uninitialized, and returns the handle without error when it is initialized. -/
theorem claim_C9_database_guard :
    (∀ config : configuration, config.database = none →
      Database config =
        Except.error ⟨"Attempt to reference uninitialized database"⟩) ∧
    (∀ (config : configuration) (db : DBHandle), config.database = some db →
      Database config = Except.ok db) := by
  constructor
  · intro c h
    simp [Database, h]
  · intro c db h
    simp [Database, h]

/-- A configuration whose database handle was never initialized. -/
def configNoDb : configuration :=
  ⟨"", "", "", "", "", "", "", "", "", 0, false, none⟩

/-- A configuration holding an initialized database handle. -/
def configWithDb : configuration :=
  ⟨"", "", "", "", "", "", "", "", "", 0, false, some ⟨1⟩⟩

/-- Witness for C9 at concrete configurations. -/
theorem claim_C9_database_guard_witness :
    Database configNoDb =
      Except.error ⟨"Attempt to reference uninitialized database"⟩ ∧
    Database configWithDb = Except.ok ⟨1⟩ :=
  ⟨claim_C9_database_guard.1 configNoDb rfl,
    claim_C9_database_guard.2 configWithDb ⟨1⟩ rfl⟩

/-- C10: after `enforceDefaults` (and hence after every successful
`InitFromFile`), `Hostname`, `LoginPort` and `CharacterPort` are non-empty
(empty inputs replaced by "127.0.0.1", "12000" and "12001") and `LogLevel`
lies in 1..4 with out-of-range values replaced by 1; all other fields are
unchanged. -/
theorem claim_C10_enforce_defaults :
    (∀ c : configuration,
      (enforceDefaults c).Hostname ≠ "" ∧
      (enforceDefaults c).LoginPort ≠ "" ∧
      (enforceDefaults c).CharacterPort ≠ "" ∧
      1 ≤ (enforceDefaults c).LogLevel ∧ (enforceDefaults c).LogLevel ≤ 4 ∧
      (c.Hostname = "" → (enforceDefaults c).Hostname = "127.0.0.1") ∧
      (c.Hostname ≠ "" → (enforceDefaults c).Hostname = c.Hostname) ∧
      (c.LoginPort = "" → (enforceDefaults c).LoginPort = "12000") ∧
      (c.LoginPort ≠ "" → (enforceDefaults c).LoginPort = c.LoginPort) ∧
      (c.CharacterPort = "" → (enforceDefaults c).CharacterPort = "12001") ∧
      (c.CharacterPort ≠ "" → (enforceDefaults c).CharacterPort = c.CharacterPort) ∧
      (c.LogLevel < 1 ∨ 4 < c.LogLevel → (enforceDefaults c).LogLevel = 1) ∧
      (1 ≤ c.LogLevel → c.LogLevel ≤ 4 → (enforceDefaults c).LogLevel = c.LogLevel) ∧
      (enforceDefaults c).DBHost = c.DBHost ∧
      (enforceDefaults c).DBPort = c.DBPort ∧
      (enforceDefaults c).DBName = c.DBName ∧
      (enforceDefaults c).DBUsername = c.DBUsername ∧
      (enforceDefaults c).DBPassword = c.DBPassword ∧
      (enforceDefaults c).Logfile = c.Logfile ∧
      (enforceDefaults c).DebugMode = c.DebugMode ∧
      (enforceDefaults c).database = c.database) ∧
    (∀ parsed d : configuration, InitFromFile (some parsed) = Except.ok d →
      d.Hostname ≠ "" ∧ d.LoginPort ≠ "" ∧ d.CharacterPort ≠ "" ∧
      1 ≤ d.LogLevel ∧ d.LogLevel ≤ 4) := by
  have key : ∀ c : configuration,
      (enforceDefaults c).Hostname ≠ "" ∧
      (enforceDefaults c).LoginPort ≠ "" ∧
      (enforceDefaults c).CharacterPort ≠ "" ∧
      1 ≤ (enforceDefaults c).LogLevel ∧ (enforceDefaults c).LogLevel ≤ 4 ∧
      (c.Hostname = "" → (enforceDefaults c).Hostname = "127.0.0.1") ∧
      (c.Hostname ≠ "" → (enforceDefaults c).Hostname = c.Hostname) ∧
      (c.LoginPort = "" → (enforceDefaults c).LoginPort = "12000") ∧
      (c.LoginPort ≠ "" → (enforceDefaults c).LoginPort = c.LoginPort) ∧
      (c.CharacterPort = "" → (enforceDefaults c).CharacterPort = "12001") ∧
      (c.CharacterPort ≠ "" → (enforceDefaults c).CharacterPort = c.CharacterPort) ∧
      (c.LogLevel < 1 ∨ 4 < c.LogLevel → (enforceDefaults c).LogLevel = 1) ∧
      (1 ≤ c.LogLevel → c.LogLevel ≤ 4 → (enforceDefaults c).LogLevel = c.LogLevel) ∧
      (enforceDefaults c).DBHost = c.DBHost ∧
      (enforceDefaults c).DBPort = c.DBPort ∧
      (enforceDefaults c).DBName = c.DBName ∧
      (enforceDefaults c).DBUsername = c.DBUsername ∧
      (enforceDefaults c).DBPassword = c.DBPassword ∧
      (enforceDefaults c).Logfile = c.Logfile ∧
      (enforceDefaults c).DebugMode = c.DebugMode ∧
      (enforceDefaults c).database = c.database := by
    intro c
    refine ⟨?neh, ?nel, ?nec, ?lo, ?hi, ?dfh, ?idh, ?dfl, ?idl, ?dfc, ?idc,
      ?out, ?inr, rfl, rfl, rfl, rfl, rfl, rfl, rfl, rfl⟩
    · simp only [enforceDefaults]
      split_ifs with h
      · decide
      · exact h
    · simp only [enforceDefaults]
      split_ifs with h
      · decide
      · exact h
    · simp only [enforceDefaults]
      split_ifs with h
      · decide
      · exact h
    · simp only [enforceDefaults, LogPriorityCritical, LogPriorityLow]
      split_ifs with h
      · omega
      · omega
    · simp only [enforceDefaults, LogPriorityCritical, LogPriorityLow]
      split_ifs with h
      · omega
      · omega
    · intro h
      simp [enforceDefaults, h]
    · intro h
      simp [enforceDefaults, h]
    · intro h
      simp [enforceDefaults, h]
    · intro h
      simp [enforceDefaults, h]
    · intro h
      simp [enforceDefaults, h]
    · intro h
      simp [enforceDefaults, h]
    · intro h
      simp only [enforceDefaults, LogPriorityCritical, LogPriorityLow]
      rw [if_pos h]
    · intro h1 h2
      simp only [enforceDefaults, LogPriorityCritical, LogPriorityLow]
      rw [if_neg]
      omega
  refine ⟨key, ?_⟩
  intro parsed d hd
  simp only [InitFromFile, Except.ok.injEq] at hd
  subst hd
  obtain ⟨k1, k2, k3, k4, k5, _⟩ := key parsed
  exact ⟨k1, k2, k3, k4, k5⟩

/-- A configuration with empty hostname/ports and an out-of-range log level. -/
def emptyConfig : configuration :=
  ⟨"", "", "", "h", "p", "n", "u", "pw", "lf", 0, false, none⟩

/-- Witness for C10 at a concrete configuration needing every default. -/
theorem claim_C10_enforce_defaults_witness :
    (enforceDefaults emptyConfig).Hostname = "127.0.0.1" ∧
    (enforceDefaults emptyConfig).LoginPort = "12000" ∧
    (enforceDefaults emptyConfig).CharacterPort = "12001" ∧
    (enforceDefaults emptyConfig).LogLevel = 1 ∧
    (enforceDefaults emptyConfig).Hostname ≠ "" :=
  by
  obtain ⟨dprops, dinit⟩ := claim_C10_enforce_defaults
  obtain ⟨_, _, _, _, _, dhost, _, dlogin, _, dchar, _, dlevel, _, _⟩ :=
    dprops emptyConfig
  exact ⟨dhost rfl, dlogin rfl, dchar rfl, dlevel (Or.inl (by decide)),
    (dinit emptyConfig (enforceDefaults emptyConfig) rfl).1⟩

end Archon
